import Mathlib

/-!
# gmicro: dual-protocol service lifecycle manager

A shallow embedding of `micro.go` and `option.go` (package `gmicro`) together with
theorems about request classification, the request interceptor, listener start-up,
gateway registration, interceptor ordering and the shutdown sequence.

Conventions of the embedding

* A Go pointer receiver `s *Service` that is mutated becomes a function returning the
  updated `Service`.
* A Go value that may be `nil` (`error`, `interface{}`, a pointer) is a Lean `Option`.
* Calls into external collaborators (the gRPC server, the HTTP server, the clock, the
  logger) are recorded as `Event`s in the `World` the code runs in.
* A Go panic is the `Outcome.panicked` result; `defer`/`recover` is modelled by the
  function that inspects that outcome.
-/

namespace Gmicro

/-! ## Section 1: `GRPCHandlerFunc` (micro.go 89-107) -/

/-- Go `strings.Contains s substr` on the characters of the two strings: some suffix of `s`
starts with `substr`. -/
def containsChars : List Char → List Char → Bool
  | [], substr => substr.isPrefixOf []
  | c :: s, substr => substr.isPrefixOf (c :: s) || containsChars s substr

/-- Go `strings.Contains`. -/
def strings.Contains (s substr : String) : Bool :=
  containsChars s.toList substr.toList

/-- Go `http.Header`: canonical header name to its list of values. -/
abbrev Header := List (String × List String)

/-- Go `http.Header.Get`: the first value stored under the key, or the empty string.
The key passed by the source, `Content-Type`, is already in canonical form. -/
def Header.Get (h : Header) (key : String) : String :=
  match h.lookup key with
  | some (v :: _) => v
  | _ => ""

/-- The fields of `*http.Request` that `GRPCHandlerFunc` reads. -/
structure Request where
  ProtoMajor : Int
  Header : Header
  deriving DecidableEq, Repr

/-- Go `http.Handler`: the effect of `ServeHTTP w r` on the serving state `σ`
(the response writer is part of `σ`). -/
abbrev Handler (σ : Type) := Request → σ → σ

/-- The handler built by `GRPCHandlerFunc grpcServer otherHandler`: the function handed to
`h2c.NewHandler`, which passes every request it serves to it. -/
def GRPCHandlerFunc {σ : Type} (grpcServer otherHandler : Handler σ) : Handler σ :=
  fun r w =>
    if r.ProtoMajor == 2 && strings.Contains (Header.Get r.Header "Content-Type") "application/grpc" then
      grpcServer r w
    else
      otherHandler r w

/-! ## Section 2: values, errors, panics and the world the code runs in -/

/-- A non-nil Go value (what an `interface{}` holds), identified by its `%v` rendering. -/
structure Value where
  text : String
  deriving DecidableEq, Repr

/-- Go `interface{}`: `none` is `nil`. -/
abbrev Any := Option Value

/-- Go `codes.Code` of google.golang.org/grpc. -/
abbrev codes.Code := Nat

def codes.InvalidArgument : codes.Code := 3

def codes.Internal : codes.Code := 13

/-- Go `codes.Code.String`. -/
def codes.String (c : codes.Code) : String :=
  match c with
  | 0 => "OK"
  | 1 => "Canceled"
  | 2 => "Unknown"
  | 3 => "InvalidArgument"
  | 4 => "DeadlineExceeded"
  | 5 => "NotFound"
  | 6 => "AlreadyExists"
  | 7 => "PermissionDenied"
  | 8 => "ResourceExhausted"
  | 9 => "FailedPrecondition"
  | 10 => "Aborted"
  | 11 => "OutOfRange"
  | 12 => "Unimplemented"
  | 13 => "Internal"
  | 14 => "Unavailable"
  | 15 => "DataLoss"
  | 16 => "Unauthenticated"
  | n => "Code(" ++ toString n ++ ")"

/-- A non-nil Go `error`: a gRPC status error (code and description) or any other error,
given by its text. The nilable `error` of Go is `Option error`. -/
inductive error where
  | status (code : codes.Code) (desc : String)
  | other (text : String)
  deriving DecidableEq, Repr

/-- Go `err.Error()`. -/
def error.Error : error → String
  | .status c desc => "rpc error: code = " ++ codes.String c ++ " desc = " ++ desc
  | .other text => text

/-- Go `os.Signal`, by signal number. -/
abbrev Signal := Nat

/-- An argument passed to a `Printf`-style function. -/
inductive Arg where
  | str (s : String)
  | int (n : Int)
  | any (v : Any)
  | duration (d : Int)
  | signal (sig : Signal)
  deriving DecidableEq, Repr

/-- The `%v` rendering of an argument. -/
def Arg.render : Arg → String
  | .str s => s
  | .int n => toString n
  | .any none => "<nil>"
  | .any (some v) => v.text
  | .duration d => toString d ++ "ns"
  | .signal sig => "signal " ++ toString sig

/-- Go `fmt.Sprintf` for the verbs `%s`, `%v`, `%d` and the escape `%%`. -/
def sprintfChars : List Char → List Arg → List Char
  | '%' :: '%' :: rest, args => '%' :: sprintfChars rest args
  | '%' :: _ :: rest, a :: args => a.render.toList ++ sprintfChars rest args
  | '%' :: c :: rest, [] => "%!".toList ++ [c] ++ "(MISSING)".toList ++ sprintfChars rest []
  | c :: rest, args => c :: sprintfChars rest args
  | [], _ => []

/-- Go `fmt.Sprintf`. -/
def fmt.Sprintf (format : String) (args : List Arg) : String :=
  String.mk (sprintfChars format.toList args)

/-- Go `status.Errorf c format a...`: the status error with code `c` and description
`fmt.Sprintf format a...`. -/
def status.Errorf (c : codes.Code) (format : String) (args : List Arg) : error :=
  error.status c (fmt.Sprintf format args)

/-- One call of `logger.Printf format args...`. -/
structure LogCall where
  format : String
  args : List Arg
  deriving DecidableEq, Repr

/-- How a Go call ends: it returns a value or it panics with a (non-nil) value. A panic
always carries a value here, as in Go 1.21 and later, where `panic(nil)` is turned into a
run-time error value. -/
inductive Outcome (α : Type) where
  | ret (a : α)
  | panicked (v : Value)
  deriving DecidableEq, Repr

/-- An observable call into a collaborator, in the order in which the code makes it. Calls
that block carry the clock reading at which they began and at which they returned. -/
inductive Event where
  | log (c : LogCall)
  | SetKeepAlivesEnabled (v : Bool) (began : Int)
  | Sleep (d : Int) (began ended : Int)
  | GracefulStop (began ended : Int)
  | Shutdown (began deadline returned : Int)
  | ctxDone (began ended : Int)
  | signalNotify (sigs : List Signal)
  | goStart (name : String)
  | reverseProxyCall (id : Nat)
  | ListenAndServe (addr : String)
  deriving DecidableEq, Repr

/-- The environment the code runs in. `clock` is the reading of `time.Now()` in nanoseconds;
`trace` the calls made so far; `rpcIdleAt` and `httpIdleAt` the clock readings at which the
RPC calls and the HTTP exchanges now in flight will have finished (a reading that is not
after `clock` means none is in flight); `rand` the state of the random source; `stack` what
`debug.Stack()` returns; `serveResult` the error with which `ListenAndServe` on an address
ends. -/
structure World where
  clock : Int
  trace : List Event
  rpcIdleAt : Int
  httpIdleAt : Int
  rand : Nat
  stack : String
  serveResult : String → error

/-- A Go computation: from a world to an outcome and the world it leaves. -/
def Go (α : Type) : Type := World → Outcome α × World

/-- Sequencing of Go statements: a panic in the first ends the sequence. -/
def Go.bind {α β : Type} (m : Go α) (f : α → Go β) : Go β :=
  fun w =>
    match m w with
    | (Outcome.ret a, w1) => f a w1
    | (Outcome.panicked v, w1) => (Outcome.panicked v, w1)

instance : Monad Go where
  pure a := fun w => (Outcome.ret a, w)
  bind := Go.bind

/-- Appends an event to the trace. -/
def emit (e : Event) : Go Unit :=
  fun w => (Outcome.ret (), { w with trace := w.trace ++ [e] })

/-- Go `time.Now()`. -/
def time.Now : Go Int :=
  fun w => (Outcome.ret w.clock, w)

/-- Go `debug.Stack()`. -/
def debug.Stack : Go String :=
  fun w => (Outcome.ret w.stack, w)

/-- The `Logger` interface of the package: `Printf` returns or panics, depending on the call
and on the world it is made in. -/
structure Logger where
  Printf : LogCall → World → Outcome Unit

/-- A call `l.Printf format args...`: the call is recorded, and it returns or panics as the
logger decides. -/
def Logger.call (l : Logger) (format : String) (args : List Arg) : Go Unit :=
  fun w => (l.Printf ⟨format, args⟩ w, { w with trace := w.trace ++ [Event.log ⟨format, args⟩] })

/-- A logger none of whose calls panics. -/
def Logger.NeverPanics (l : Logger) : Prop :=
  ∀ (c : LogCall) (w : World), l.Printf c w = Outcome.ret ()

/-! ## Section 3: the `Service` record (micro.go 42-80) -/

/-- Modelled from the spec: the context keys `XRequestID`, `GRPCClientIP`, `RequestMethod` and
`RequestURI`, which are package-level declarations outside `micro.go` and `option.go`. The
specification lists the correlation id, the caller address and the method identifier as
separate attributes of a call context, so they are distinct keys here; `other` stands for
every key of another package. -/
inductive CtxKey where
  | XRequestID
  | GRPCClientIP
  | RequestMethod
  | RequestURI
  | other (name : String)
  deriving DecidableEq, Repr

/-- A (non-nil) value stored in a context. -/
inductive CtxVal where
  | str (s : String)
  | val (v : Value)
  deriving DecidableEq, Repr

/-- Go `context.Context`: the chain of `WithValue` pairs, the latest first, and the address
of the peer that the transport attached to the call. -/
structure Ctx where
  values : List (CtxKey × CtxVal)
  peer : Option String
  deriving DecidableEq, Repr

/-- Go `ctx.Value key`: the latest value stored under the key, `none` for `nil`. -/
def Ctx.Value (ctx : Ctx) (key : CtxKey) : Option CtxVal :=
  ctx.values.lookup key

/-- Go `context.WithValue ctx key val`. -/
def context.WithValue (ctx : Ctx) (key : CtxKey) (val : CtxVal) : Ctx :=
  { ctx with values := (key, val) :: ctx.values }

/-- Go `context.Background()`. -/
def context.Background : Ctx := { values := [], peer := none }

/-- Go `grpc.UnaryServerInfo`. -/
structure UnaryServerInfo where
  FullMethod : String
  deriving DecidableEq, Repr

/-- Go `grpc.UnaryHandler`: it returns a reply and an error, or panics, and may change the
world. -/
abbrev UnaryHandler := Ctx → Any → Go (Any × Option error)

/-- Go `grpc.UnaryServerInterceptor` values, by name: the built-in hooks of the package and
the interceptors a user supplies. -/
inductive UnaryServerInterceptor where
  | grpc_validator
  | grpc_recovery
  | RequestInterceptor
  | grpc_prometheus
  | user (id : Nat)
  deriving DecidableEq, Repr

/-- Go `grpc.StreamServerInterceptor` values, by name. -/
inductive StreamServerInterceptor where
  | grpc_validator
  | grpc_recovery
  | grpc_prometheus
  | user (id : Nat)
  deriving DecidableEq, Repr

/-- Go `grpc.ServerOption` values: the two chain options that `NewService` builds and the
options a user supplies. -/
inductive ServerOption where
  | WithStreamServerChain (interceptors : List StreamServerInterceptor)
  | WithUnaryServerChain (interceptors : List UnaryServerInterceptor)
  | user (id : Nat)
  deriving DecidableEq, Repr

/-- Go `grpc.DialOption` values. -/
inductive DialOption where
  | WithInsecure
  | user (id : Nat)
  deriving DecidableEq, Repr

/-- Go `*grpc.Server`, as built by `grpc.NewServer opts...`. -/
structure GRPCServer where
  opts : List ServerOption
  deriving DecidableEq, Repr

/-- Go `runtime.ProtoErrorHandlerFunc` values, by name. -/
inductive ErrorHandler where
  | DefaultHTTPError
  | user (id : Nat)
  deriving DecidableEq, Repr

/-- Go `AnnotatorFunc` values, by name. -/
abbrev AnnotatorFunc := Nat

/-- Go `runtime.ServeMuxOption` values. -/
inductive ServeMuxOption where
  | defaultMuxOption
  | WithProtoErrorHandler (h : Option ErrorHandler)
  | WithMetadata (annotator : AnnotatorFunc)
  | user (id : Nat)
  deriving DecidableEq, Repr

/-- Path patterns of the gateway; `PathPattern` and `AllPattern` are helpers of the package
outside the two source files. -/
inductive Pattern where
  | PathPattern (path : String)
  | AllPattern
  | user (id : Nat)
  deriving DecidableEq, Repr

/-- Go `runtime.HandlerFunc` values of routes, by name. -/
inductive RouteHandler where
  | metrics
  | staticFiles
  | user (id : Nat)
  deriving DecidableEq, Repr

/-- The `Route` of the package: method, path pattern, handler. -/
structure Route where
  Method : String
  Pattern : Pattern
  Handler : RouteHandler
  deriving DecidableEq, Repr

/-- Go `*runtime.ServeMux`: the options it was built with and the handlers registered on it,
in registration order (`registered` holds what the reverse-proxy functions wired in). -/
structure ServeMux where
  opts : List ServeMuxOption
  handlers : List (String × Pattern × RouteHandler)
  registered : List Nat
  deriving DecidableEq, Repr

/-- Go `runtime.NewServeMux opts...`. -/
def runtime.NewServeMux (opts : List ServeMuxOption) : ServeMux :=
  { opts := opts, handlers := [], registered := [] }

/-- Go `mux.Handle meth pat h`. -/
def ServeMux.Handle (mux : ServeMux) (meth : String) (pat : Pattern) (h : RouteHandler) : ServeMux :=
  { mux with handlers := mux.handlers ++ [(meth, pat, h)] }

/-- Go `HTTPHandlerFunc` values, by name. -/
inductive HTTPHandlerFunc where
  | DefaultHTTPHandler
  | user (id : Nat)
  deriving DecidableEq, Repr

/-- Go `func()` values, by name. -/
inductive Callback where
  | noop
  | defaultRecovery
  | user (id : Nat)
  deriving DecidableEq, Repr

/-- What `HTTPServer.Handler` is set to. -/
inductive ServerHandler where
  | httpHandler (f : HTTPHandlerFunc) (mux : ServeMux)
  | GRPCHandlerFunc (grpcServer : Option GRPCServer) (httpMux : ServeMux)
  deriving DecidableEq, Repr

/-- Go `*http.Server`: the fields the package sets (durations in nanoseconds) and the hooks
registered with `RegisterOnShutdown`. -/
structure HTTPServer where
  Addr : String
  Handler : Option ServerHandler
  ReadHeaderTimeout : Int
  ReadTimeout : Int
  WriteTimeout : Int
  IdleTimeout : Int
  onShutdown : List (Option Callback)
  deriving DecidableEq, Repr

/-- Go `ReverseProxyFunc`: a function that wires a downstream route into the mux `mux` and
may fail; `id` names the function in the trace. -/
structure ReverseProxyFunc where
  id : Nat
  run : Ctx → ServeMux → String → List DialOption → Option error × ServeMux

/-- Go `Service`. -/
structure Service where
  GRPCServer : Option GRPCServer
  HTTPServer : Option HTTPServer
  httpHandler : Option HTTPHandlerFunc
  gRPCAddress : String
  httpServerAddress : String
  recovery : Option Callback
  shutdownFunc : Option Callback
  shutdownTimeout : Int
  preShutdownDelay : Int
  interruptSignals : List Signal
  annotators : List AnnotatorFunc
  staticDir : String
  errorHandler : Option ErrorHandler
  mux : Option ServeMux
  muxOptions : List ServeMuxOption
  routes : List Route
  streamInterceptors : List StreamServerInterceptor
  unaryInterceptors : List UnaryServerInterceptor
  enableRequestAccess : Bool
  gRPCServerOptions : List ServerOption
  gRPCDialOptions : List DialOption
  logger : Logger
  reverseProxyFuncs : List ReverseProxyFunc
  enablePrometheus : Bool

/-- The declarations of package `gmicro` that the two source files use and that are declared
in other files of the package. -/
structure Pkg where
  dummyLogger : Logger
  InterruptSignals : List Signal
  GetGRPCClientIP : Ctx → String × Option error
  RndUUID : Nat → String

/-! ## Section 4: `RequestInterceptor` (micro.go 212-255) -/

/-- The `RndUUID()` of the package: the next value of the random source. -/
def RndUUID (pkg : Pkg) : Go String :=
  fun w => (Outcome.ret (pkg.RndUUID w.rand), { w with rand := w.rand + 1 })

/-- Lines 226-240: the statements of `RequestInterceptor` before the handler call. The
result is the start time `t` and the context handed to the handler. -/
def RequestInterceptor.enter (pkg : Pkg) (s : Service) (ctx : Ctx) (info : UnaryServerInfo) :
    Go (Int × Ctx) := do
  let t ← time.Now
  let (clientIP, _) := pkg.GetGRPCClientIP ctx
  s.logger.call "exec begin\n" []
  s.logger.call "client_ip: %s\n" [Arg.str clientIP]
  let ctx ← (match ctx.Value CtxKey.XRequestID with
    | none => do
        let id ← RndUUID pkg
        pure (context.WithValue ctx CtxKey.XRequestID (CtxVal.str id))
    | some _ => pure ctx)
  let ctx := context.WithValue ctx CtxKey.GRPCClientIP (CtxVal.str clientIP)
  let ctx := context.WithValue ctx CtxKey.RequestMethod (CtxVal.str info.FullMethod)
  let ctx := context.WithValue ctx CtxKey.RequestURI (CtxVal.str info.FullMethod)
  return (t, ctx)

/-- Lines 243-254: the statements after `res, err = handler(ctx, req)` returned. -/
def RequestInterceptor.leave (s : Service) (t : Int) (res : Any) (err : Option error) :
    Go (Any × Option error) := do
  let now ← time.Now
  let ttd := (now - t).tdiv 1000000
  match err with
  | some e => do
      s.logger.call "trace_error: %s\n" [Arg.str e.Error]
      s.logger.call "exec time: %v\n" [Arg.int ttd]
      s.logger.call "reply: %v\n" [Arg.any res]
      return (none, some e)
  | none => do
      s.logger.call "exec end,cost time: %v ms\n" [Arg.int ttd]
      return (res, none)

/-- Lines 215-224: the deferred function when `recover()` returns a value `r`; `res` is the
named result at the time of the panic. A panic raised in here leaves the interceptor. -/
def RequestInterceptor.recovered (s : Service) (res : Any) (r : Value) :
    Go (Any × Option error) := do
  let err := status.Errorf codes.Internal "%s" [Arg.str "server inner error"]
  s.logger.call "reply: %v\n" [Arg.any res]
  s.logger.call "exec panic: %v\n" [Arg.any (some r)]
  let stack ← debug.Stack
  s.logger.call "full stack: %s\n" [Arg.str stack]
  return (res, some err)

/-- Lines 226-242: the statements up to and including `res, err = handler(ctx, req)`. -/
def RequestInterceptor.call (pkg : Pkg) (s : Service) (ctx : Ctx) (req : Any)
    (info : UnaryServerInfo) (handler : UnaryHandler) : Go (Int × Any × Option error) := do
  let (t, ctx) ← RequestInterceptor.enter pkg s ctx info
  let (res, err) ← handler ctx req
  return (t, res, err)

/-- Go `(s *Service) RequestInterceptor`. The named results `res` and `err` are `nil` until
the handler has returned, and hold the handler's results from then on; the deferred function
sees them as they are when a panic is raised. -/
def RequestInterceptor (pkg : Pkg) (s : Service) (ctx : Ctx) (req : Any)
    (info : UnaryServerInfo) (handler : UnaryHandler) : Go (Any × Option error) :=
  fun w =>
    match RequestInterceptor.call pkg s ctx req info handler w with
    | (Outcome.panicked r, w1) => RequestInterceptor.recovered s none r w1
    | (Outcome.ret (t, res, err), w1) =>
        match RequestInterceptor.leave s t res err w1 with
        | (Outcome.panicked r, w2) => RequestInterceptor.recovered s res r w2
        | (Outcome.ret out, w2) => (Outcome.ret out, w2)

/-- The context that `RequestInterceptor` hands to the handler (the incoming context when
the statements before the call panic). -/
def RequestInterceptor.handlerCtx (pkg : Pkg) (s : Service) (ctx : Ctx) (info : UnaryServerInfo)
    (w : World) : Ctx :=
  match (RequestInterceptor.enter pkg s ctx info w).1 with
  | Outcome.ret (_, c) => c
  | Outcome.panicked _ => ctx

/-- The world in which `RequestInterceptor` calls the handler. -/
def RequestInterceptor.handlerWorld (pkg : Pkg) (s : Service) (ctx : Ctx) (info : UnaryServerInfo)
    (w : World) : World :=
  (RequestInterceptor.enter pkg s ctx info w).2

/-! ## Section 5: options (option.go) and `NewService` (micro.go 109-210) -/

/-- Go `Option`, the functional option `func(s *Service)`. -/
abbrev Opt := Service → Service

/-- Go `WithRecovery`. -/
def WithRecovery (f : Option Callback) : Opt :=
  fun s => { s with recovery := f }

/-- Go `WithHTTPHandler`. -/
def WithHTTPHandler (h : Option HTTPHandlerFunc) : Opt :=
  fun s => { s with httpHandler := h }

/-- Go `WithAnnotator`. -/
def WithAnnotator (annotator : List AnnotatorFunc) : Opt :=
  fun s => { s with annotators := s.annotators ++ annotator }

/-- Go `WithErrorHandler`. -/
def WithErrorHandler (errorHandler : Option ErrorHandler) : Opt :=
  fun s => { s with errorHandler := errorHandler }

/-- Go `WithUnaryInterceptor`. -/
def WithUnaryInterceptor (unaryInterceptor : List UnaryServerInterceptor) : Opt :=
  fun s => { s with unaryInterceptors := s.unaryInterceptors ++ unaryInterceptor }

/-- Go `WithStreamInterceptor`. -/
def WithStreamInterceptor (streamInterceptor : List StreamServerInterceptor) : Opt :=
  fun s => { s with streamInterceptors := s.streamInterceptors ++ streamInterceptor }

/-- Go `WithShutdownFunc`. -/
def WithShutdownFunc (f : Option Callback) : Opt :=
  fun s => { s with shutdownFunc := f }

/-- Go `WithShutdownTimeout`. -/
def WithShutdownTimeout (timeout : Int) : Opt :=
  fun s => { s with shutdownTimeout := timeout }

/-- Go `WithPreShutdownDelay`. -/
def WithPreShutdownDelay (timeout : Int) : Opt :=
  fun s => { s with preShutdownDelay := timeout }

/-- Go `WithInterruptSignal`. -/
def WithInterruptSignal (signal : Signal) : Opt :=
  fun s => { s with interruptSignals := s.interruptSignals ++ [signal] }

/-- Go `WithStaticDir`. -/
def WithStaticDir (dir : String) : Opt :=
  fun s => { s with staticDir := dir }

/-- Go `WithGRPCServerOption`; option.go spells the field `grpcServerOptions`. -/
def WithGRPCServerOption (serverOption : List ServerOption) : Opt :=
  fun s => { s with gRPCServerOptions := s.gRPCServerOptions ++ serverOption }

/-- Go `WithGRPCDialOption`; option.go spells the field `grpcDialOptions`. -/
def WithGRPCDialOption (dialOption : List DialOption) : Opt :=
  fun s => { s with gRPCDialOptions := s.gRPCDialOptions ++ dialOption }

/-- Go `WithGRPCMuxOption`. -/
def WithGRPCMuxOption (muxOption : List ServeMuxOption) : Opt :=
  fun s => { s with muxOptions := s.muxOptions ++ muxOption }

/-- Go `WithHTTPServer`. -/
def WithHTTPServer (server : Option HTTPServer) : Opt :=
  fun s => { s with HTTPServer := server }

/-- Go `WithLogger`. -/
def WithLogger (logger : Logger) : Opt :=
  fun s => { s with logger := logger }

/-- Go `WithPrometheus`. -/
def WithPrometheus (b : Bool) : Opt :=
  fun s => { s with enablePrometheus := b }

/-- Go `WithReverseProxyFunc`. -/
def WithReverseProxyFunc (reverseProxyFunc : List ReverseProxyFunc) : Opt :=
  fun s => { s with reverseProxyFuncs := s.reverseProxyFuncs ++ reverseProxyFunc }

/-- Go `(s *Service) WithRoutes`: the option appends to the service it is applied to. -/
def Service.WithRoutes (_ : Service) (routes : List Route) : Opt :=
  fun s => { s with routes := s.routes ++ routes }

/-- Go `(s *Service) apply`. -/
def Service.apply (s : Service) (opts : List Opt) : Service :=
  opts.foldl (fun s opt => opt s) s

/-- A call of one of the option constructors of option.go, with its arguments. -/
inductive OptionCall where
  | WithRecovery (f : Option Callback)
  | WithHTTPHandler (h : Option HTTPHandlerFunc)
  | WithAnnotator (annotator : List AnnotatorFunc)
  | WithErrorHandler (errorHandler : Option ErrorHandler)
  | WithUnaryInterceptor (unaryInterceptor : List UnaryServerInterceptor)
  | WithStreamInterceptor (streamInterceptor : List StreamServerInterceptor)
  | WithShutdownFunc (f : Option Callback)
  | WithShutdownTimeout (timeout : Int)
  | WithPreShutdownDelay (timeout : Int)
  | WithInterruptSignal (signal : Signal)
  | WithStaticDir (dir : String)
  | WithGRPCServerOption (serverOption : List ServerOption)
  | WithGRPCDialOption (dialOption : List DialOption)
  | WithGRPCMuxOption (muxOption : List ServeMuxOption)
  | WithHTTPServer (server : Option HTTPServer)
  | WithLogger (logger : Logger)
  | WithPrometheus (b : Bool)
  | WithReverseProxyFunc (reverseProxyFunc : List ReverseProxyFunc)
  | WithRoutes (receiver : Service) (routes : List Route)

/-- The option that a constructor call returns. -/
def OptionCall.toOpt : OptionCall → Opt
  | .WithRecovery f => Gmicro.WithRecovery f
  | .WithHTTPHandler h => Gmicro.WithHTTPHandler h
  | .WithAnnotator a => Gmicro.WithAnnotator a
  | .WithErrorHandler e => Gmicro.WithErrorHandler e
  | .WithUnaryInterceptor u => Gmicro.WithUnaryInterceptor u
  | .WithStreamInterceptor u => Gmicro.WithStreamInterceptor u
  | .WithShutdownFunc f => Gmicro.WithShutdownFunc f
  | .WithShutdownTimeout t => Gmicro.WithShutdownTimeout t
  | .WithPreShutdownDelay t => Gmicro.WithPreShutdownDelay t
  | .WithInterruptSignal sig => Gmicro.WithInterruptSignal sig
  | .WithStaticDir d => Gmicro.WithStaticDir d
  | .WithGRPCServerOption o => Gmicro.WithGRPCServerOption o
  | .WithGRPCDialOption o => Gmicro.WithGRPCDialOption o
  | .WithGRPCMuxOption o => Gmicro.WithGRPCMuxOption o
  | .WithHTTPServer srv => Gmicro.WithHTTPServer srv
  | .WithLogger l => Gmicro.WithLogger l
  | .WithPrometheus b => Gmicro.WithPrometheus b
  | .WithReverseProxyFunc r => Gmicro.WithReverseProxyFunc r
  | .WithRoutes recv routes => Service.WithRoutes recv routes

/-- The unary interceptors that a sequence of constructor calls supplies, in the order in
which they are supplied. -/
def suppliedUnary : List OptionCall → List UnaryServerInterceptor
  | [] => []
  | .WithUnaryInterceptor u :: rest => u ++ suppliedUnary rest
  | _ :: rest => suppliedUnary rest

/-- The stream interceptors that a sequence of constructor calls supplies, in order. -/
def suppliedStream : List OptionCall → List StreamServerInterceptor
  | [] => []
  | .WithStreamInterceptor u :: rest => u ++ suppliedStream rest
  | _ :: rest => suppliedStream rest

/-- The gRPC server options that a sequence of constructor calls supplies, in order. -/
def suppliedServerOptions : List OptionCall → List ServerOption
  | [] => []
  | .WithGRPCServerOption o :: rest => o ++ suppliedServerOptions rest
  | _ :: rest => suppliedServerOptions rest

/-- Go `time.Second` in nanoseconds. -/
def time.Second : Int := 1000000000

/-- The `defaultShutdownTimeout` constant. -/
def defaultShutdownTimeout : Int := 10 * time.Second

/-- The `defaultPreShutdownDelay` constant. -/
def defaultPreShutdownDelay : Int := 2 * time.Second

/-- The zero value `Service{}`; the `nil` logger is the one whose every call panics. -/
def Service.zero : Service :=
  { GRPCServer := none, HTTPServer := none, httpHandler := none, gRPCAddress := "",
    httpServerAddress := "", recovery := none, shutdownFunc := none, shutdownTimeout := 0,
    preShutdownDelay := 0, interruptSignals := [], annotators := [], staticDir := "",
    errorHandler := none, mux := none, muxOptions := [], routes := [],
    streamInterceptors := [], unaryInterceptors := [], enableRequestAccess := false,
    gRPCServerOptions := [], gRPCDialOptions := [],
    logger := ⟨fun _ _ => Outcome.panicked ⟨"invalid memory address or nil pointer dereference"⟩⟩,
    reverseProxyFuncs := [], enablePrometheus := false }

/-- Go `defaultService`. -/
def defaultService (pkg : Pkg) : Service :=
  let s := Service.zero
  let s := { s with httpHandler := some HTTPHandlerFunc.DefaultHTTPHandler }
  let s := { s with errorHandler := some ErrorHandler.DefaultHTTPError }
  let s := { s with shutdownFunc := some Callback.noop }
  let s := { s with shutdownTimeout := defaultShutdownTimeout }
  let s := { s with preShutdownDelay := defaultPreShutdownDelay }
  let s := { s with logger := pkg.dummyLogger }
  let s := { s with recovery := some Callback.defaultRecovery }
  let s := { s with interruptSignals := pkg.InterruptSignals }
  let s := { s with streamInterceptors := [] }
  let s := { s with unaryInterceptors := [] }
  let s := { s with streamInterceptors := s.streamInterceptors ++ [StreamServerInterceptor.grpc_validator] }
  let s := { s with unaryInterceptors := s.unaryInterceptors ++ [UnaryServerInterceptor.grpc_validator] }
  let s := { s with streamInterceptors := s.streamInterceptors ++ [StreamServerInterceptor.grpc_recovery] }
  let s := { s with unaryInterceptors := s.unaryInterceptors ++ [UnaryServerInterceptor.grpc_recovery] }
  let s := { s with muxOptions := s.muxOptions ++ [ServeMuxOption.defaultMuxOption] }
  s

/-- Go `grpc.NewServer opts...`. -/
def grpc.NewServer (opts : List ServerOption) : GRPCServer := { opts := opts }

/-- The `/metrics` route that `NewService` adds when prometheus is enabled. -/
def routeMetrics : Route :=
  { Method := "GET", Pattern := Pattern.PathPattern "metrics", Handler := RouteHandler.metrics }

/-- The `http.Server` that `NewService` installs when none was supplied. -/
def defaultHTTPServer : HTTPServer :=
  { Addr := "", Handler := none, ReadHeaderTimeout := 5 * time.Second,
    ReadTimeout := 5 * time.Second, WriteTimeout := 10 * time.Second,
    IdleTimeout := 20 * time.Second, onShutdown := [] }

/-- Lines 154-209 of `NewService`: the statements that follow `s.apply(opts...)`. -/
def NewService.finish (s : Service) : Service :=
  let s := if s.enableRequestAccess then
      { s with unaryInterceptors := s.unaryInterceptors ++ [UnaryServerInterceptor.RequestInterceptor] }
    else s
  let s := if s.gRPCDialOptions.length == 0 then
      { s with gRPCDialOptions := s.gRPCDialOptions ++ [DialOption.WithInsecure] }
    else s
  let s := if s.enablePrometheus then
      { s with
        streamInterceptors := s.streamInterceptors ++ [StreamServerInterceptor.grpc_prometheus],
        unaryInterceptors := s.unaryInterceptors ++ [UnaryServerInterceptor.grpc_prometheus],
        routes := s.routes ++ [routeMetrics] }
    else s
  let s := { s with muxOptions := s.muxOptions ++ [ServeMuxOption.WithProtoErrorHandler s.errorHandler] }
  let s := { s with muxOptions :=
    s.annotators.foldl (fun acc annotator => acc ++ [ServeMuxOption.WithMetadata annotator]) s.muxOptions }
  let s := { s with mux := some (runtime.NewServeMux s.muxOptions) }
  let s := { s with gRPCServerOptions :=
    s.gRPCServerOptions ++ [ServerOption.WithStreamServerChain s.streamInterceptors] }
  let s := { s with gRPCServerOptions :=
    s.gRPCServerOptions ++ [ServerOption.WithUnaryServerChain s.unaryInterceptors] }
  let s := { s with GRPCServer := some (grpc.NewServer s.gRPCServerOptions) }
  let s := if s.HTTPServer.isNone then { s with HTTPServer := some defaultHTTPServer } else s
  s

/-- Go `NewService`: the default service, the options applied in order, then the
installation of the built-in parts. -/
def NewService (pkg : Pkg) (opts : List Opt) : Service :=
  let s := defaultService pkg
  let s := s.apply opts
  NewService.finish s

/-! ## Section 6: `Stop` and `stopGRPCAndHTTPServer` (micro.go 376-399, 465-489) -/

/-- The value of the run-time panic raised by a method call through a `nil` pointer. -/
def nilDereference : Value :=
  ⟨"runtime error: invalid memory address or nil pointer dereference"⟩

/-- Go `panic(v)`. -/
def goPanic {α : Type} (v : Value) : Go α :=
  fun w => (Outcome.panicked v, w)

/-- Go `srv.SetKeepAlivesEnabled(v)` on the `*http.Server` of the service: it returns at
once. -/
def HTTPServer.SetKeepAlivesEnabled (srv : Option HTTPServer) (v : Bool) : Go Unit :=
  match srv with
  | none => goPanic nilDereference
  | some _ => fun w =>
      (Outcome.ret (), { w with trace := w.trace ++ [Event.SetKeepAlivesEnabled v w.clock] })

/-- Go `time.Sleep(d)`: the caller is blocked for `d` (not at all when `d` is not positive). -/
def time.Sleep (d : Int) : Go Unit :=
  fun w =>
    (Outcome.ret (), { w with
      clock := w.clock + max d 0,
      trace := w.trace ++ [Event.Sleep d w.clock (w.clock + max d 0)] })

/-- Go `srv.GracefulStop()` on the `*grpc.Server` of the service: the caller is blocked until
the RPC calls in flight have finished, with no upper bound. -/
def GRPCServer.GracefulStop (srv : Option GRPCServer) : Go Unit :=
  match srv with
  | none => goPanic nilDereference
  | some _ => fun w =>
      (Outcome.ret (), { w with
        clock := max w.clock w.rpcIdleAt,
        trace := w.trace ++ [Event.GracefulStop w.clock (max w.clock w.rpcIdleAt)] })

/-- Go `context.WithTimeout(context.Background(), timeout)`: the context is given by its
deadline, `timeout` after the present clock reading. -/
def context.WithTimeout (timeout : Int) : Go Int :=
  fun w => (Outcome.ret (w.clock + timeout), w)

/-- Go `go srv.Shutdown(ctx)`: the statement starts `Shutdown` on a goroutine of its own and
does not wait for it. `Shutdown` returns when the HTTP exchanges in flight have finished or
when the deadline of `ctx` has passed, whichever comes first; the event records that time. -/
def HTTPServer.goShutdown (srv : Option HTTPServer) (deadline : Int) : Go Unit :=
  match srv with
  | none => goPanic nilDereference
  | some _ => fun w =>
      (Outcome.ret (), { w with
        trace := w.trace ++
          [Event.Shutdown w.clock deadline (max w.clock (min w.httpIdleAt deadline))] })

/-- Go `<-ctx.Done()` on a context made by `context.WithTimeout` from the background context
whose `cancel` has not been called: the receive is blocked until the deadline has passed. -/
def ctxDone (deadline : Int) : Go Unit :=
  fun w =>
    (Outcome.ret (), { w with
      clock := max w.clock deadline,
      trace := w.trace ++ [Event.ctxDone w.clock (max w.clock deadline)] })

/-- Go `(s *Service) Stop`. The deferred `cancel()` runs after the receive from
`ctx.Done()` and has no effect that is observed. -/
def Stop (s : Service) : Go Unit := do
  HTTPServer.SetKeepAlivesEnabled s.HTTPServer false
  if s.preShutdownDelay > 0 then
    s.logger.call "Waiting for %v before shutdown starts\n" [Arg.duration s.preShutdownDelay]
    time.Sleep s.preShutdownDelay
  GRPCServer.GracefulStop s.GRPCServer
  let ctx ← context.WithTimeout s.shutdownTimeout
  HTTPServer.goShutdown s.HTTPServer ctx
  ctxDone ctx

/-- The clock reading at which the delay step of a stop routine entered in world `w` ends. -/
def Stop.delayEnd (s : Service) (w : World) : Int :=
  if s.preShutdownDelay > 0 then w.clock + s.preShutdownDelay else w.clock

/-- The clock reading at which the graceful stop of the RPC server, in `Stop` entered in
world `w`, returns. -/
def Stop.drainEnd (s : Service) (w : World) : Int :=
  max (Stop.delayEnd s w) w.rpcIdleAt

/-- The events of the delay step: the log line and the sleep, or nothing when the delay is
not positive. -/
def Stop.delayEvents (s : Service) (w : World) : List Event :=
  if s.preShutdownDelay > 0 then
    [Event.log ⟨"Waiting for %v before shutdown starts\n", [Arg.duration s.preShutdownDelay]⟩,
      Event.Sleep s.preShutdownDelay w.clock (w.clock + s.preShutdownDelay)]
  else []

/-- Go `(s *Service) stopGRPCAndHTTPServer`. -/
def stopGRPCAndHTTPServer (s : Service) : Go Unit := do
  HTTPServer.SetKeepAlivesEnabled s.HTTPServer false
  if s.preShutdownDelay > 0 then
    s.logger.call "Waiting for %v before shutdown starts\n" [Arg.duration s.preShutdownDelay]
    time.Sleep s.preShutdownDelay
  let ctx ← context.WithTimeout s.shutdownTimeout
  HTTPServer.goShutdown s.HTTPServer ctx
  ctxDone ctx

/-! ## Section 7: `Start` and `StartGRPCAndHTTPServer` (micro.go 267-318, 404-436) -/

/-- The communication with which the `select` statement of a start function proceeds: the
value received from a listener goroutine on its error channel, or the signal received on the
signal channel. -/
inductive Fired where
  | errChan1 (err : Option error)
  | errChan2 (err : Option error)
  | sigChan (sig : Signal)
  deriving DecidableEq, Repr

/-- Lines 270-276 of `Start`: the addresses and the reverse-proxy functions are stored in the
service. -/
def Start.configure (s : Service) (httpPort grpcPort : Int)
    (reverseProxyFunc : List ReverseProxyFunc) : Service :=
  let s := { s with httpServerAddress := fmt.Sprintf "0.0.0.0:%d" [Arg.int httpPort] }
  let s := { s with gRPCAddress := fmt.Sprintf "0.0.0.0:%d" [Arg.int grpcPort] }
  let s := if reverseProxyFunc.length > 0 then
      { s with reverseProxyFuncs := s.reverseProxyFuncs ++ reverseProxyFunc }
    else s
  s

/-- Go `(s *Service) Start`, as run by the calling goroutine: the two listener goroutines are
started (their bodies are `startGRPCServer` and `startGRPCGateway`) and the `select`
statement proceeds with the communication `fired`. -/
def Start (s : Service) (httpPort grpcPort : Int) (reverseProxyFunc : List ReverseProxyFunc)
    (fired : Fired) : Go (Option error) := do
  let s := Start.configure s httpPort grpcPort reverseProxyFunc
  emit (Event.signalNotify s.interruptSignals)
  emit (Event.goStart "startGRPCServer")
  emit (Event.goStart "startGRPCGateway")
  match fired with
  | Fired.errChan1 err => return err
  | Fired.errChan2 err => return err
  | Fired.sigChan sig => do
      s.logger.call "Interrupt signal received: %v\n" [Arg.signal sig]
      Stop s
      return none

/-- The communication with which the `select` statement of `StartGRPCAndHTTPServer` proceeds:
the value received on its single error channel, or the signal received. -/
inductive FiredShared where
  | errChan (err : Option error)
  | sigChan (sig : Signal)
  deriving DecidableEq, Repr

/-- Lines 406-408 of `StartGRPCAndHTTPServer`: both addresses are the shared one. -/
def StartGRPCAndHTTPServer.configure (s : Service) (port : Int) : Service :=
  let s := { s with httpServerAddress := fmt.Sprintf "0.0.0.0:%d" [Arg.int port] }
  let s := { s with gRPCAddress := s.httpServerAddress }
  s

/-- Go `(s *Service) StartGRPCAndHTTPServer`, as run by the calling goroutine: the listener
goroutine is started (its body is `startWithSharePort`) and the `select` statement proceeds
with the communication `fired`. -/
def StartGRPCAndHTTPServer (s : Service) (port : Int) (fired : FiredShared) :
    Go (Option error) := do
  let s := StartGRPCAndHTTPServer.configure s port
  emit (Event.signalNotify s.interruptSignals)
  emit (Event.goStart "startWithSharePort")
  match fired with
  | FiredShared.errChan err => return err
  | FiredShared.sigChan sig => do
      s.logger.call "Interrupt signal received: %v\n" [Arg.signal sig]
      stopGRPCAndHTTPServer s
      return none

/-! ## Section 8: gateway start (micro.go 333-374, 438-463) -/

/-- The loop `for _, route := range s.routes` with its `s.mux.Handle` call. -/
def applyRoutes (routes : List Route) (mux : ServeMux) : ServeMux :=
  routes.foldl (fun mux route => mux.Handle route.Method route.Pattern route.Handler) mux

/-- Go `srv.ListenAndServe()`: the call serves until the listener ends and returns the error
with which it ends (a bind failure, or the error of a closed server). -/
def HTTPServer.ListenAndServe (srv : HTTPServer) : Go error :=
  fun w => (Outcome.ret (w.serveResult srv.Addr),
    { w with trace := w.trace ++ [Event.ListenAndServe srv.Addr] })

/-- Lines 342-348 of `startGRPCGateway`: the loop over `s.reverseProxyFuncs`, which returns
the error of the first function that fails. The result is that error (or `nil` when the loop
ran to its end) and the mux as the functions called have left it. -/
def startGRPCGateway.register (s : Service) :
    List ReverseProxyFunc → ServeMux → Go (Option error × ServeMux)
  | [], mux => pure (none, mux)
  | h :: rest, mux => do
      emit (Event.reverseProxyCall h.id)
      let (err, mux) := h.run context.Background mux s.gRPCAddress s.gRPCDialOptions
      match err with
      | some e => do
          s.logger.call "register handler from endPoint error: %s\n" [Arg.str e.Error]
          return (some e, mux)
      | none => startGRPCGateway.register s rest mux

/-- Go `(s *Service) startGRPCGateway`. A `nil` mux, HTTP server or HTTP handler function
makes the call panic. -/
def startGRPCGateway (s : Service) : Go (Option error × Service) :=
  match s.mux with
  | none => goPanic nilDereference
  | some mux => do
      let mux := applyRoutes s.routes mux
      let (err, mux) ← startGRPCGateway.register s s.reverseProxyFuncs mux
      match err with
      | some e => return (some e, { s with mux := some mux })
      | none =>
          let mux := mux.Handle "GET" Pattern.AllPattern RouteHandler.staticFiles
          match s.HTTPServer, s.httpHandler with
          | some srv, some httpHandler => do
              let srv := { srv with Addr := s.httpServerAddress }
              let srv := { srv with Handler := some (ServerHandler.httpHandler httpHandler mux) }
              let srv := { srv with onShutdown := srv.onShutdown ++ [s.shutdownFunc] }
              let err ← srv.ListenAndServe
              return (some err, { s with mux := some mux, HTTPServer := some srv })
          | _, _ => goPanic nilDereference

/-- Lines 446-451 of `startWithSharePort`: the loop over `s.reverseProxyFuncs`, which logs
the error of a function that fails and goes on with the next function. -/
def startWithSharePort.register (s : Service) : List ReverseProxyFunc → ServeMux → Go ServeMux
  | [], mux => pure mux
  | h :: rest, mux => do
      emit (Event.reverseProxyCall h.id)
      let (err, mux) := h.run context.Background mux s.gRPCAddress s.gRPCDialOptions
      match err with
      | some e => s.logger.call "register handler from endPoint error: %s\n" [Arg.str e.Error]
      | none => pure ()
      startWithSharePort.register s rest mux

/-- Go `(s *Service) startWithSharePort`. -/
def startWithSharePort (s : Service) : Go (Option error × Service) :=
  match s.mux with
  | none => goPanic nilDereference
  | some mux => do
      let mux := applyRoutes s.routes mux
      let mux ← startWithSharePort.register s s.reverseProxyFuncs mux
      match s.HTTPServer with
      | some srv => do
          let srv := { srv with Addr := s.httpServerAddress }
          let srv := { srv with Handler := some (ServerHandler.GRPCHandlerFunc s.GRPCServer mux) }
          let srv := { srv with onShutdown := srv.onShutdown ++ [s.shutdownFunc] }
          let err ← srv.ListenAndServe
          return (some err, { s with mux := some mux, HTTPServer := some srv })
      | none => goPanic nilDereference

/-- The value a call returned, `none` when it panicked. -/
def Outcome.value {α : Type} : Outcome α → Option α
  | Outcome.ret a => some a
  | Outcome.panicked _ => none

/-! ## Section 9: concrete inputs -/

/-- A logger that discards every call. -/
def quietLogger : Logger := ⟨fun _ _ => Outcome.ret ()⟩

/-- Package declarations for the examples: a quiet default logger, the signals SIGINT and
SIGTERM, the peer address as client address, and a counter-based identifier source. -/
def pkg0 : Pkg :=
  { dummyLogger := quietLogger
    InterruptSignals := [2, 15]
    GetGRPCClientIP := fun ctx =>
      match ctx.peer with
      | some addr => (addr, none)
      | none => ("", some (error.other "could not get client ip"))
    RndUUID := fun n => "uuid-" ++ toString n }

/-- A world at clock reading 0 with nothing in flight. -/
def w0 : World :=
  { clock := 0, trace := [], rpcIdleAt := 0, httpIdleAt := 0, rand := 0, stack := "goroutine 1",
    serveResult := fun _ => error.other "http: Server closed" }

/-- The service `NewService()` with the package defaults. -/
def svc0 : Service := NewService pkg0 []

/-- The service `NewService(WithPreShutdownDelay(0))`: no delay, ten seconds of shutdown
timeout. -/
def svcNoDelay : Service := NewService pkg0 [WithPreShutdownDelay 0]

/-- An incoming call context with a peer address and no request id. -/
def ctx0 : Ctx := { values := [], peer := some "10.0.0.7:5000" }

/-- A unary method descriptor. -/
def info0 : UnaryServerInfo := { FullMethod := "/pkg.Greeter/SayHello" }

/-- A handler that panics. -/
def panicHandler : UnaryHandler := fun _ _ => goPanic ⟨"boom"⟩

/-- A handler that replies. -/
def okHandler : UnaryHandler := fun _ _ => pure (some ⟨"reply"⟩, none)

/-- A handler that fails with a `NotFound` status and a partial reply. -/
def failingHandler : UnaryHandler :=
  fun _ _ => pure (some ⟨"partial"⟩, some (error.status 5 "no such user"))

/-- A logger that panics on the `trace_error` line and on no other. -/
def brittleLogger : Logger :=
  ⟨fun c _ => if c.format = "trace_error: %s\n" then Outcome.panicked ⟨"bad verb"⟩ else Outcome.ret ()⟩

/-- The service `NewService(WithLogger(brittleLogger))`. -/
def svcBrittle : Service := NewService pkg0 [WithLogger brittleLogger]

/-- A reverse-proxy function that fails. -/
def proxyFails : ReverseProxyFunc :=
  { id := 1, run := fun _ mux _ _ => (some (error.other "dial tcp: connection refused"), mux) }

/-- A reverse-proxy function that registers its routes. -/
def proxyOk : ReverseProxyFunc :=
  { id := 2, run := fun _ mux _ _ => (none, { mux with registered := mux.registered ++ [2] }) }

/-- The service `NewService(WithReverseProxyFunc(proxyFails, proxyOk))`. -/
def svcProxies : Service := NewService pkg0 [WithReverseProxyFunc [proxyFails, proxyOk]]

/-- An incoming call context that already carries a request id. -/
def ctxWithID : Ctx :=
  { values := [(CtxKey.XRequestID, CtxVal.str "req-42")], peer := some "10.0.0.7:5000" }

/-- The world `w0` at a later clock reading. -/
def wLater : World := { w0 with clock := 1700000000 }

/-- A logger that panics on the `exec panic` line of the deferred function and on no
other. -/
def recoveryBrittleLogger : Logger :=
  ⟨fun c _ => if c.format = "exec panic: %v\n" then Outcome.panicked ⟨"log sink closed"⟩
    else Outcome.ret ()⟩

/-- The service `NewService(WithLogger(recoveryBrittleLogger))`. -/
def svcRecoveryBrittle : Service := NewService pkg0 [WithLogger recoveryBrittleLogger]

/-! ## Section 10: the request classification of the specification -/

/-- Which of the two handlers of `GRPCHandlerFunc` served a request. -/
inductive Target where
  | grpcServer
  | otherHandler
  deriving DecidableEq, Repr

/-- A gRPC server stand-in whose `ServeHTTP` only records that it was called. -/
def recordGRPC : Handler (List Target) := fun _ log => log ++ [Target.grpcServer]

/-- A gateway handler stand-in whose `ServeHTTP` only records that it was called. -/
def recordOther : Handler (List Target) := fun _ log => log ++ [Target.otherHandler]

/-- The classification of the specification: HTTP major version 2 and a `Content-Type`
header value that has `application/grpc` as a contiguous part. -/
def IsRPCRequest (r : Request) : Prop :=
  r.ProtoMajor = 2 ∧ "application/grpc".toList <:+: (Header.Get r.Header "Content-Type").toList

instance (r : Request) : Decidable (IsRPCRequest r) := by
  unfold IsRPCRequest; infer_instance

/-! ## Theorems -/

/-! ### Lemmas on `strings.Contains` -/

theorem containsChars_iff (substr : List Char) :
    ∀ s : List Char, containsChars s substr = true ↔ substr <:+: s
  | [] => by
      simp [containsChars, List.isPrefixOf_iff_prefix]
  | c :: s => by
      simp [containsChars, List.isPrefixOf_iff_prefix, List.infix_cons_iff, containsChars_iff substr s]

theorem strings_Contains_iff (s substr : String) :
    strings.Contains s substr = true ↔ substr.toList <:+: s.toList := by
  simp [strings.Contains, containsChars_iff]

theorem grpc_condition_iff (r : Request) :
    (r.ProtoMajor == 2 && strings.Contains (Header.Get r.Header "Content-Type") "application/grpc") = true
      ↔ IsRPCRequest r := by
  simp [IsRPCRequest, strings_Contains_iff]

/-- C1: the handler built by `GRPCHandlerFunc` behaves, on every request and for every pair of
handlers, as the gRPC server when the request has HTTP major version 2 and a `Content-Type`
containing `application/grpc`, and as the other handler on every other request; with handlers
that record their calls, the request reaches the gRPC server exactly in the first case, the
other handler exactly in the second, and exactly one call is recorded. -/
theorem C1_GRPCHandlerFunc_dispatch (r : Request) :
    (∀ (σ : Type) (grpcServer otherHandler : Handler σ) (w : σ),
        GRPCHandlerFunc grpcServer otherHandler r w
          = if IsRPCRequest r then grpcServer r w else otherHandler r w)
    ∧ (∀ log : List Target,
        (GRPCHandlerFunc recordGRPC recordOther r log = log ++ [Target.grpcServer] ↔ IsRPCRequest r)
        ∧ (GRPCHandlerFunc recordGRPC recordOther r log = log ++ [Target.otherHandler]
            ↔ ¬ IsRPCRequest r)
        ∧ (GRPCHandlerFunc recordGRPC recordOther r log).length = log.length + 1) := by
  have hc := grpc_condition_iff r
  refine ⟨?_, ?_⟩
  · intro σ g o w
    unfold GRPCHandlerFunc
    by_cases h : IsRPCRequest r
    · simp [h, hc.mpr h]
    · have hf : ¬ ((r.ProtoMajor == 2 && strings.Contains (Header.Get r.Header "Content-Type") "application/grpc") = true) :=
        fun hx => h (hc.mp hx)
      simp [h, hf]
  · intro log
    unfold GRPCHandlerFunc
    by_cases h : IsRPCRequest r
    · simp [h, hc.mpr h, recordGRPC, recordOther]
    · have hf : ¬ ((r.ProtoMajor == 2 && strings.Contains (Header.Get r.Header "Content-Type") "application/grpc") = true) :=
        fun hx => h (hc.mp hx)
      simp [h, hf, recordGRPC, recordOther]

/-! ### The Go monad and the logger -/

@[simp] theorem Go.pure_apply {α : Type} (a : α) (w : World) :
    (pure a : Go α) w = (Outcome.ret a, w) := rfl

@[simp] theorem Go.bind_apply {α β : Type} (m : Go α) (f : α → Go β) (w : World) :
    (m >>= f) w = match m w with
      | (Outcome.ret a, w1) => f a w1
      | (Outcome.panicked v, w1) => (Outcome.panicked v, w1) := rfl

theorem Logger.call_of_neverPanics {l : Logger} (hl : l.NeverPanics) (format : String)
    (args : List Arg) (w : World) :
    l.call format args w
      = (Outcome.ret (), { w with trace := w.trace ++ [Event.log ⟨format, args⟩] }) := by
  simp [Logger.call, hl _ w]

/-! ### `RequestInterceptor` -/

theorem RequestInterceptor.enter_of_neverPanics (pkg : Pkg) (s : Service) (ctx : Ctx)
    (info : UnaryServerInfo) (w : World) (hl : s.logger.NeverPanics) :
    RequestInterceptor.enter pkg s ctx info w
      = (Outcome.ret (w.clock, RequestInterceptor.handlerCtx pkg s ctx info w),
          RequestInterceptor.handlerWorld pkg s ctx info w) := by
  unfold RequestInterceptor.handlerCtx RequestInterceptor.handlerWorld RequestInterceptor.enter
  cases h : ctx.Value CtxKey.XRequestID <;>
    simp [h, Logger.call_of_neverPanics hl, time.Now, RndUUID]

theorem status_Errorf_inner :
    status.Errorf codes.Internal "%s" [Arg.str "server inner error"]
      = error.status codes.Internal "server inner error" := by
  decide

theorem RequestInterceptor.recovered_of_neverPanics (s : Service) (res : Any) (r : Value)
    (w : World) (hl : s.logger.NeverPanics) :
    RequestInterceptor.recovered s res r w
      = (Outcome.ret (res, some (error.status codes.Internal "server inner error")),
          { w with trace := w.trace ++ [Event.log ⟨"reply: %v\n", [Arg.any res]⟩,
              Event.log ⟨"exec panic: %v\n", [Arg.any (some r)]⟩,
              Event.log ⟨"full stack: %s\n", [Arg.str w.stack]⟩] }) := by
  unfold RequestInterceptor.recovered
  simp [Logger.call_of_neverPanics hl, debug.Stack, status_Errorf_inner]

theorem RequestInterceptor.panic_of_neverPanics (pkg : Pkg) (s : Service) (ctx : Ctx) (req : Any)
    (info : UnaryServerInfo) (handler : UnaryHandler) (w w2 : World) (v : Value)
    (hl : s.logger.NeverPanics)
    (hp : handler (RequestInterceptor.handlerCtx pkg s ctx info w) req
            (RequestInterceptor.handlerWorld pkg s ctx info w) = (Outcome.panicked v, w2)) :
    RequestInterceptor pkg s ctx req info handler w
      = (Outcome.ret (none, some (error.status codes.Internal "server inner error")),
          { w2 with trace := w2.trace ++ [Event.log ⟨"reply: %v\n", [Arg.any none]⟩,
              Event.log ⟨"exec panic: %v\n", [Arg.any (some v)]⟩,
              Event.log ⟨"full stack: %s\n", [Arg.str w2.stack]⟩] }) := by
  have hc : RequestInterceptor.call pkg s ctx req info handler w = (Outcome.panicked v, w2) := by
    unfold RequestInterceptor.call
    simp [RequestInterceptor.enter_of_neverPanics pkg s ctx info w hl, hp]
  unfold RequestInterceptor
  simp [hc, RequestInterceptor.recovered_of_neverPanics s none v w2 hl]

/-- C3: when the handler called by `RequestInterceptor` returns `(r, e)` and the logger does
not panic, `RequestInterceptor` returns `(nil, e)` for a non-nil error `e`, with that same
error, and `(r, nil)` when the error is `nil`. -/
theorem C3_RequestInterceptor_passes_result (pkg : Pkg) (s : Service) (ctx : Ctx) (req : Any)
    (info : UnaryServerInfo) (handler : UnaryHandler) (w w2 : World) (r : Any)
    (e : Option error) (hl : s.logger.NeverPanics)
    (hr : handler (RequestInterceptor.handlerCtx pkg s ctx info w) req
            (RequestInterceptor.handlerWorld pkg s ctx info w) = (Outcome.ret (r, e), w2)) :
    (RequestInterceptor pkg s ctx req info handler w).1
      = Outcome.ret (match e with
          | some err => (none, some err)
          | none => (r, none)) := by
  have hc : RequestInterceptor.call pkg s ctx req info handler w
      = (Outcome.ret (w.clock, r, e), w2) := by
    unfold RequestInterceptor.call
    simp [RequestInterceptor.enter_of_neverPanics pkg s ctx info w hl, hr]
  unfold RequestInterceptor
  cases e with
  | none =>
      simp [hc, RequestInterceptor.leave, Logger.call_of_neverPanics hl, time.Now]
  | some err =>
      simp [hc, RequestInterceptor.leave, Logger.call_of_neverPanics hl, time.Now]

theorem C3_RequestInterceptor_passes_result_witness :
    (RequestInterceptor pkg0 svc0 ctx0 none info0 failingHandler w0).1
        = Outcome.ret (none, some (error.status 5 "no such user"))
      ∧ (RequestInterceptor pkg0 svc0 ctx0 none info0 okHandler w0).1
        = Outcome.ret (some ⟨"reply"⟩, none) :=
  ⟨C3_RequestInterceptor_passes_result pkg0 svc0 ctx0 none info0 failingHandler w0 _
      (some ⟨"partial"⟩) (some (error.status 5 "no such user")) (fun _ _ => rfl) rfl,
   C3_RequestInterceptor_passes_result pkg0 svc0 ctx0 none info0 okHandler w0 _
      (some ⟨"reply"⟩) none (fun _ _ => rfl) rfl⟩

/-- C10, as stated, fails: the handler returns the reply `partial` with a `NotFound` error,
the log call for the `trace_error` line then panics, and `RequestInterceptor` returns the
reply with the `Internal` error `server inner error`, not with the handler's error. -/
theorem C10_logging_panic_replaces_error :
    RequestInterceptor.call pkg0 svcBrittle ctx0 none info0 failingHandler w0
        = (Outcome.ret (0, some ⟨"partial"⟩, some (error.status 5 "no such user")),
            RequestInterceptor.handlerWorld pkg0 svcBrittle ctx0 info0 w0)
      ∧ (RequestInterceptor.leave svcBrittle 0 (some ⟨"partial"⟩)
            (some (error.status 5 "no such user"))
            (RequestInterceptor.handlerWorld pkg0 svcBrittle ctx0 info0 w0)).1
          = Outcome.panicked ⟨"bad verb"⟩
      ∧ (RequestInterceptor pkg0 svcBrittle ctx0 none info0 failingHandler w0).1
          = Outcome.ret (some ⟨"partial"⟩, some (error.status codes.Internal "server inner error"))
      ∧ (RequestInterceptor pkg0 svcBrittle ctx0 none info0 failingHandler w0).1
          ≠ Outcome.ret (some ⟨"partial"⟩, some (error.status 5 "no such user")) := by
  refine ⟨rfl, rfl, rfl, ?_⟩
  decide

theorem RequestInterceptor.recovered_of_quiet_recovery (s : Service) (res : Any) (r : Value)
    (w : World)
    (hq : ∀ (c : LogCall) (w1 : World),
      c.format ∈ ["reply: %v\n", "exec panic: %v\n", "full stack: %s\n"] →
        s.logger.Printf c w1 = Outcome.ret ()) :
    (RequestInterceptor.recovered s res r w).1
      = Outcome.ret (res, some (error.status codes.Internal "server inner error")) := by
  unfold RequestInterceptor.recovered
  simp [Logger.call, hq, debug.Stack, status_Errorf_inner]

/-- C2, as stated, fails: the handler is called and panics with the value `boom`; the
deferred function then logs, its `exec panic` log call panics, and that panic leaves
`RequestInterceptor` instead of a returned `Internal` error. -/
theorem C2_panic_in_recovery_logging_propagates :
    (RequestInterceptor.enter pkg0 svcRecoveryBrittle ctx0 info0 w0).1
        = Outcome.ret (0, RequestInterceptor.handlerCtx pkg0 svcRecoveryBrittle ctx0 info0 w0)
    ∧ (panicHandler (RequestInterceptor.handlerCtx pkg0 svcRecoveryBrittle ctx0 info0 w0) none
          (RequestInterceptor.handlerWorld pkg0 svcRecoveryBrittle ctx0 info0 w0)).1
        = Outcome.panicked ⟨"boom"⟩
    ∧ (RequestInterceptor pkg0 svcRecoveryBrittle ctx0 none info0 panicHandler w0).1
        = Outcome.panicked ⟨"log sink closed"⟩
    ∧ (RequestInterceptor pkg0 svcRecoveryBrittle ctx0 none info0 panicHandler w0).1
        ≠ Outcome.ret (none, some (error.status codes.Internal "server inner error")) := by
  refine ⟨rfl, rfl, rfl, ?_⟩
  decide

/-- C2, amended: when the handler called by `RequestInterceptor` panics (with any value `v`)
and the three log calls of the deferred function return, `RequestInterceptor` does not
propagate the panic: it returns `nil` together with the status error of code `Internal` and
description `server inner error`, whatever the panic value and the stack trace are. -/
theorem C2_handler_panic_yields_internal (pkg : Pkg) (s : Service) (ctx : Ctx) (req : Any)
    (info : UnaryServerInfo) (handler : UnaryHandler) (w w1 w2 : World) (t : Int) (c : Ctx)
    (v : Value)
    (henter : RequestInterceptor.enter pkg s ctx info w = (Outcome.ret (t, c), w1))
    (hp : handler c req w1 = (Outcome.panicked v, w2))
    (hq : ∀ (c : LogCall) (w1 : World),
      c.format ∈ ["reply: %v\n", "exec panic: %v\n", "full stack: %s\n"] →
        s.logger.Printf c w1 = Outcome.ret ()) :
    (RequestInterceptor pkg s ctx req info handler w).1
      = Outcome.ret (none, some (error.status codes.Internal "server inner error")) := by
  have hc : RequestInterceptor.call pkg s ctx req info handler w = (Outcome.panicked v, w2) := by
    unfold RequestInterceptor.call
    simp [henter, hp]
  unfold RequestInterceptor
  simp only [hc]
  exact RequestInterceptor.recovered_of_quiet_recovery s none v w2 hq

theorem C2_handler_panic_yields_internal_witness :
    (RequestInterceptor pkg0 svcBrittle ctx0 none info0 panicHandler w0).1
      = Outcome.ret (none, some (error.status codes.Internal "server inner error")) :=
  C2_handler_panic_yields_internal pkg0 svcBrittle ctx0 none info0 panicHandler w0 _ _ 0 _
    ⟨"boom"⟩ rfl rfl
    (by
      intro c w1 hc
      have hne : c.format ≠ "trace_error: %s\n" := by
        intro h
        rw [h] at hc
        revert hc
        decide
      show (if c.format = "trace_error: %s\n" then Outcome.panicked ⟨"bad verb"⟩
        else Outcome.ret ()) = Outcome.ret ()
      rw [if_neg hne])

/-- C10, amended: when the handler has returned `(r, e)` and a later log call of
`RequestInterceptor` panics, the panic is caught by the deferred function of the interceptor,
and, provided the three log calls of that deferred function return, `RequestInterceptor`
returns the handler's reply `r` together with the `Internal` error `server inner error`,
which takes the place of the handler's error `e`. -/
theorem C10_logging_panic_yields_internal (pkg : Pkg) (s : Service) (ctx : Ctx) (req : Any)
    (info : UnaryServerInfo) (handler : UnaryHandler) (w w2 w3 : World) (t : Int) (r : Any)
    (e : Option error) (v : Value)
    (hcall : RequestInterceptor.call pkg s ctx req info handler w = (Outcome.ret (t, r, e), w2))
    (hleave : RequestInterceptor.leave s t r e w2 = (Outcome.panicked v, w3))
    (hq : ∀ (c : LogCall) (w1 : World),
      c.format ∈ ["reply: %v\n", "exec panic: %v\n", "full stack: %s\n"] →
        s.logger.Printf c w1 = Outcome.ret ()) :
    (RequestInterceptor pkg s ctx req info handler w).1
      = Outcome.ret (r, some (error.status codes.Internal "server inner error")) := by
  unfold RequestInterceptor
  simp only [hcall, hleave]
  exact RequestInterceptor.recovered_of_quiet_recovery s r v w3 hq

theorem C10_logging_panic_yields_internal_witness :
    (RequestInterceptor pkg0 svcBrittle ctx0 none info0 failingHandler w0).1
      = Outcome.ret (some ⟨"partial"⟩, some (error.status codes.Internal "server inner error")) :=
  C10_logging_panic_yields_internal pkg0 svcBrittle ctx0 none info0 failingHandler w0 _ _ 0
    (some ⟨"partial"⟩) (some (error.status 5 "no such user")) ⟨"bad verb"⟩ rfl rfl
    (by
      intro c w1 hc
      have hne : c.format ≠ "trace_error: %s\n" := by
        intro h
        rw [h] at hc
        revert hc
        decide
      show (if c.format = "trace_error: %s\n" then Outcome.panicked ⟨"bad verb"⟩
        else Outcome.ret ()) = Outcome.ret ()
      rw [if_neg hne])

/-! ### `Stop` -/

theorem Stop_eq (s : Service) (w : World) (hl : s.logger.NeverPanics)
    (hh : s.HTTPServer ≠ none) (hg : s.GRPCServer ≠ none) :
    Stop s w = (Outcome.ret (),
      { w with
        clock := max (Stop.drainEnd s w) (Stop.drainEnd s w + s.shutdownTimeout),
        trace := w.trace ++ [Event.SetKeepAlivesEnabled false w.clock] ++ Stop.delayEvents s w ++
          [Event.GracefulStop (Stop.delayEnd s w) (Stop.drainEnd s w),
            Event.Shutdown (Stop.drainEnd s w) (Stop.drainEnd s w + s.shutdownTimeout)
              (max (Stop.drainEnd s w) (min w.httpIdleAt (Stop.drainEnd s w + s.shutdownTimeout))),
            Event.ctxDone (Stop.drainEnd s w)
              (max (Stop.drainEnd s w) (Stop.drainEnd s w + s.shutdownTimeout))] }) := by
  obtain ⟨srv, hsrv⟩ := Option.ne_none_iff_exists'.mp hh
  obtain ⟨g, hgs⟩ := Option.ne_none_iff_exists'.mp hg
  unfold Stop Stop.drainEnd Stop.delayEnd Stop.delayEvents
  by_cases hd : s.preShutdownDelay > 0
  · have hmax : max s.preShutdownDelay 0 = s.preShutdownDelay := max_eq_left (le_of_lt hd)
    simp [hsrv, hgs, hd, HTTPServer.SetKeepAlivesEnabled, GRPCServer.GracefulStop,
      HTTPServer.goShutdown, ctxDone, context.WithTimeout, time.Sleep,
      Logger.call_of_neverPanics hl, hmax]
  · simp [hsrv, hgs, hd, HTTPServer.SetKeepAlivesEnabled, GRPCServer.GracefulStop,
      HTTPServer.goShutdown, ctxDone, context.WithTimeout]

theorem stopGRPCAndHTTPServer_eq (s : Service) (w : World) (hl : s.logger.NeverPanics)
    (hh : s.HTTPServer ≠ none) :
    stopGRPCAndHTTPServer s w = (Outcome.ret (),
      { w with
        clock := max (Stop.delayEnd s w) (Stop.delayEnd s w + s.shutdownTimeout),
        trace := w.trace ++ [Event.SetKeepAlivesEnabled false w.clock] ++ Stop.delayEvents s w ++
          [Event.Shutdown (Stop.delayEnd s w) (Stop.delayEnd s w + s.shutdownTimeout)
              (max (Stop.delayEnd s w) (min w.httpIdleAt (Stop.delayEnd s w + s.shutdownTimeout))),
            Event.ctxDone (Stop.delayEnd s w)
              (max (Stop.delayEnd s w) (Stop.delayEnd s w + s.shutdownTimeout))] }) := by
  obtain ⟨srv, hsrv⟩ := Option.ne_none_iff_exists'.mp hh
  unfold stopGRPCAndHTTPServer Stop.delayEnd Stop.delayEvents
  by_cases hd : s.preShutdownDelay > 0
  · have hmax : max s.preShutdownDelay 0 = s.preShutdownDelay := max_eq_left (le_of_lt hd)
    simp [hsrv, hd, HTTPServer.SetKeepAlivesEnabled,
      HTTPServer.goShutdown, ctxDone, context.WithTimeout, time.Sleep,
      Logger.call_of_neverPanics hl, hmax]
  · simp [hsrv, hd, HTTPServer.SetKeepAlivesEnabled,
      HTTPServer.goShutdown, ctxDone, context.WithTimeout]

theorem Stop.clock_le_delayEnd (s : Service) (w : World) : w.clock ≤ Stop.delayEnd s w := by
  unfold Stop.delayEnd
  split_ifs with h
  · omega
  · exact le_refl _

theorem Stop.delayEnd_le_drainEnd (s : Service) (w : World) :
    Stop.delayEnd s w ≤ Stop.drainEnd s w :=
  le_max_left _ _

/-- C5: for every service with a gateway server, an RPC server and a logger that does not
panic, `Stop` makes exactly these calls, in this order, each beginning at the clock reading at
which the previous one returned: keep-alives are disabled on the gateway server; when the
pre-shutdown delay is positive, it is logged and slept (nothing happens when it is zero); the
RPC server is gracefully stopped; the gateway shutdown is started under a deadline that lies
the shutdown timeout after that moment; and `Stop` waits for that deadline. -/
theorem C5_Stop_phase_order (s : Service) (w : World) (hl : s.logger.NeverPanics)
    (hh : s.HTTPServer ≠ none) (hg : s.GRPCServer ≠ none) :
    (Stop s w).1 = Outcome.ret ()
    ∧ (Stop s w).2.trace
        = w.trace ++ [Event.SetKeepAlivesEnabled false w.clock] ++
          (if s.preShutdownDelay > 0 then
            [Event.log ⟨"Waiting for %v before shutdown starts\n", [Arg.duration s.preShutdownDelay]⟩,
              Event.Sleep s.preShutdownDelay w.clock (w.clock + s.preShutdownDelay)]
          else []) ++
          [Event.GracefulStop (Stop.delayEnd s w) (Stop.drainEnd s w),
            Event.Shutdown (Stop.drainEnd s w) (Stop.drainEnd s w + s.shutdownTimeout)
              (max (Stop.drainEnd s w) (min w.httpIdleAt (Stop.drainEnd s w + s.shutdownTimeout))),
            Event.ctxDone (Stop.drainEnd s w)
              (max (Stop.drainEnd s w) (Stop.drainEnd s w + s.shutdownTimeout))]
    ∧ Stop.delayEnd s w = (if s.preShutdownDelay > 0 then w.clock + s.preShutdownDelay else w.clock)
    ∧ w.clock ≤ Stop.delayEnd s w
    ∧ Stop.delayEnd s w ≤ Stop.drainEnd s w := by
  rw [Stop_eq s w hl hh hg]
  exact ⟨rfl, rfl, rfl, Stop.clock_le_delayEnd s w, Stop.delayEnd_le_drainEnd s w⟩

theorem C5_Stop_phase_order_witness :
    (Stop svc0 w0).1 = Outcome.ret ()
    ∧ (Stop svc0 w0).2.trace
        = [Event.SetKeepAlivesEnabled false 0,
            Event.log ⟨"Waiting for %v before shutdown starts\n", [Arg.duration 2000000000]⟩,
            Event.Sleep 2000000000 0 2000000000,
            Event.GracefulStop 2000000000 2000000000,
            Event.Shutdown 2000000000 12000000000 2000000000,
            Event.ctxDone 2000000000 12000000000] :=
  ⟨(C5_Stop_phase_order svc0 w0 (fun _ _ => rfl) (by decide) (by decide)).1,
    (C5_Stop_phase_order svc0 w0 (fun _ _ => rfl) (by decide) (by decide)).2.1.trans (by decide)⟩

/-- C8, at the failing input: the service has no pre-shutdown delay and the default shutdown
timeout of ten seconds, and no RPC call or HTTP exchange is in flight. The gateway shutdown
that `Stop` starts at clock reading 0 returns at clock reading 0, and `Stop` itself stays
blocked until the deadline, ten seconds later. -/
theorem C8_Stop_waits_for_deadline_when_idle :
    w0.httpIdleAt ≤ w0.clock
    ∧ svcNoDelay.preShutdownDelay = 0
    ∧ svcNoDelay.shutdownTimeout = 10000000000
    ∧ (Stop svcNoDelay w0).1 = Outcome.ret ()
    ∧ (Stop svcNoDelay w0).2.trace
        = [Event.SetKeepAlivesEnabled false 0,
            Event.GracefulStop 0 0,
            Event.Shutdown 0 10000000000 0,
            Event.ctxDone 0 10000000000]
    ∧ (Stop svcNoDelay w0).2.clock = 10000000000 := by
  refine ⟨?_, ?_, ?_, ?_, ?_, ?_⟩ <;> decide

theorem Stop_phase4_duration (s : Service) (w : World) (hl : s.logger.NeverPanics)
    (hh : s.HTTPServer ≠ none) (hg : s.GRPCServer ≠ none) :
    (Stop s w).2.clock - Stop.drainEnd s w = max 0 s.shutdownTimeout := by
  rw [Stop_eq s w hl hh hg]
  show max (Stop.drainEnd s w) (Stop.drainEnd s w + s.shutdownTimeout) - Stop.drainEnd s w
    = max 0 s.shutdownTimeout
  rcases le_total 0 s.shutdownTimeout with h | h
  · rw [max_eq_right (by omega), max_eq_right h]; omega
  · rw [max_eq_left (by omega), max_eq_left h]; omega

/-- C9, as stated, fails: on a service without pre-shutdown delay, in a world with nothing in
flight, a second `Stop` after a completed `Stop` disables keep-alives, stops the RPC server,
starts a gateway shutdown and waits for its deadline once more; the trace has eight calls
instead of four and the clock stands at twenty seconds instead of ten. -/
theorem C9_second_Stop_is_not_a_noop :
    (Stop svcNoDelay w0).1 = Outcome.ret ()
    ∧ (Stop svcNoDelay (Stop svcNoDelay w0).2).1 = Outcome.ret ()
    ∧ (Stop svcNoDelay (Stop svcNoDelay w0).2).2.trace
        = (Stop svcNoDelay w0).2.trace ++
          [Event.SetKeepAlivesEnabled false 10000000000,
            Event.GracefulStop 10000000000 10000000000,
            Event.Shutdown 10000000000 20000000000 10000000000,
            Event.ctxDone 10000000000 20000000000]
    ∧ (Stop svcNoDelay (Stop svcNoDelay w0).2).2.trace ≠ (Stop svcNoDelay w0).2.trace
    ∧ (Stop svcNoDelay w0).2.clock = 10000000000
    ∧ (Stop svcNoDelay (Stop svcNoDelay w0).2).2.clock = 20000000000 := by
  refine ⟨?_, ?_, ?_, ?_, ?_, ?_⟩ <;> decide

theorem Stop_rpcIdleAt_le_clock (s : Service) (w : World) (hl : s.logger.NeverPanics)
    (hh : s.HTTPServer ≠ none) (hg : s.GRPCServer ≠ none) :
    (Stop s w).2.rpcIdleAt ≤ (Stop s w).2.clock := by
  rw [Stop_eq s w hl hh hg]
  show w.rpcIdleAt ≤ max (Stop.drainEnd s w) (Stop.drainEnd s w + s.shutdownTimeout)
  exact le_trans (le_max_right _ _) (le_max_left _ _)

/-- C9, amended: for every service with a gateway server, an RPC server and a logger that
does not panic, a `Stop` invoked after a completed `Stop` returns without a panic and is not a
no-op: it appends the same sequence of calls to the trace once more (keep-alives disabled,
the delay when it is positive, the graceful stop of the RPC server, which now returns at
once, the gateway shutdown under a new deadline, and the wait for that deadline). -/
theorem C9_second_Stop_repeats_sequence (s : Service) (w : World) (hl : s.logger.NeverPanics)
    (hh : s.HTTPServer ≠ none) (hg : s.GRPCServer ≠ none) :
    (Stop s w).1 = Outcome.ret ()
    ∧ (Stop s (Stop s w).2).1 = Outcome.ret ()
    ∧ (Stop s (Stop s w).2).2.trace
        = (Stop s w).2.trace ++ [Event.SetKeepAlivesEnabled false (Stop s w).2.clock] ++
          Stop.delayEvents s (Stop s w).2 ++
          [Event.GracefulStop (Stop.delayEnd s (Stop s w).2) (Stop.delayEnd s (Stop s w).2),
            Event.Shutdown (Stop.delayEnd s (Stop s w).2)
              (Stop.delayEnd s (Stop s w).2 + s.shutdownTimeout)
              (max (Stop.delayEnd s (Stop s w).2)
                (min (Stop s w).2.httpIdleAt (Stop.delayEnd s (Stop s w).2 + s.shutdownTimeout))),
            Event.ctxDone (Stop.delayEnd s (Stop s w).2)
              (max (Stop.delayEnd s (Stop s w).2)
                (Stop.delayEnd s (Stop s w).2 + s.shutdownTimeout))] := by
  have h1 : (Stop s w).1 = Outcome.ret () := by rw [Stop_eq s w hl hh hg]
  have hidle := Stop_rpcIdleAt_le_clock s w hl hh hg
  have hd : Stop.drainEnd s (Stop s w).2 = Stop.delayEnd s (Stop s w).2 := by
    unfold Stop.drainEnd
    exact max_eq_left (le_trans hidle (Stop.clock_le_delayEnd s _))
  refine ⟨h1, ?_, ?_⟩
  · rw [Stop_eq s (Stop s w).2 hl hh hg]
  · rw [Stop_eq s (Stop s w).2 hl hh hg, hd]

theorem C9_second_Stop_repeats_sequence_witness :
    (Stop svc0 (Stop svc0 w0).2).1 = Outcome.ret ()
    ∧ (Stop svc0 (Stop svc0 w0).2).2.trace
        = (Stop svc0 w0).2.trace ++
          [Event.SetKeepAlivesEnabled false 12000000000,
            Event.log ⟨"Waiting for %v before shutdown starts\n", [Arg.duration 2000000000]⟩,
            Event.Sleep 2000000000 12000000000 14000000000,
            Event.GracefulStop 14000000000 14000000000,
            Event.Shutdown 14000000000 24000000000 14000000000,
            Event.ctxDone 14000000000 24000000000] :=
  ⟨(C9_second_Stop_repeats_sequence svc0 w0 (fun _ _ => rfl) (by decide) (by decide)).2.1,
    (C9_second_Stop_repeats_sequence svc0 w0 (fun _ _ => rfl) (by decide) (by decide)).2.2.trans
      (by decide)⟩

/-! ### `Start` and `StartGRPCAndHTTPServer` -/

theorem Start.configure_logger (s : Service) (httpPort grpcPort : Int)
    (reverseProxyFunc : List ReverseProxyFunc) :
    (Start.configure s httpPort grpcPort reverseProxyFunc).logger = s.logger := by
  unfold Start.configure
  simp only []
  split_ifs <;> rfl

theorem Start.configure_interruptSignals (s : Service) (httpPort grpcPort : Int)
    (reverseProxyFunc : List ReverseProxyFunc) :
    (Start.configure s httpPort grpcPort reverseProxyFunc).interruptSignals
      = s.interruptSignals := by
  unfold Start.configure
  simp only []
  split_ifs <;> rfl

theorem Start.configure_HTTPServer (s : Service) (httpPort grpcPort : Int)
    (reverseProxyFunc : List ReverseProxyFunc) :
    (Start.configure s httpPort grpcPort reverseProxyFunc).HTTPServer = s.HTTPServer := by
  unfold Start.configure
  simp only []
  split_ifs <;> rfl

theorem Start.configure_GRPCServer (s : Service) (httpPort grpcPort : Int)
    (reverseProxyFunc : List ReverseProxyFunc) :
    (Start.configure s httpPort grpcPort reverseProxyFunc).GRPCServer = s.GRPCServer := by
  unfold Start.configure
  simp only []
  split_ifs <;> rfl

/-- C4: in `Start` and in `StartGRPCAndHTTPServer` the communication with which the `select`
statement proceeds decides the result. A value received from a listener's error channel is
returned as it is, and the call has then made no call on either server: the trace has gained
only the signal registration and the start of the listener goroutines, and the clock has not
moved. A signal makes the call log it, run its stop routine (`Stop`, respectively
`stopGRPCAndHTTPServer`) to its end and return `nil`. -/
theorem C4_start_returns_first_outcome (s : Service) (httpPort grpcPort port : Int)
    (reverseProxyFunc : List ReverseProxyFunc) (w : World) (hl : s.logger.NeverPanics)
    (hh : s.HTTPServer ≠ none) (hg : s.GRPCServer ≠ none) :
    (∀ err : Option error,
        Start s httpPort grpcPort reverseProxyFunc (Fired.errChan1 err) w
          = (Outcome.ret err, { w with trace := w.trace ++
              [Event.signalNotify s.interruptSignals, Event.goStart "startGRPCServer",
                Event.goStart "startGRPCGateway"] }))
    ∧ (∀ err : Option error,
        Start s httpPort grpcPort reverseProxyFunc (Fired.errChan2 err) w
          = (Outcome.ret err, { w with trace := w.trace ++
              [Event.signalNotify s.interruptSignals, Event.goStart "startGRPCServer",
                Event.goStart "startGRPCGateway"] }))
    ∧ (∀ sig : Signal,
        Start s httpPort grpcPort reverseProxyFunc (Fired.sigChan sig) w
          = (Outcome.ret none,
              (Stop (Start.configure s httpPort grpcPort reverseProxyFunc)
                { w with trace := w.trace ++
                  [Event.signalNotify s.interruptSignals, Event.goStart "startGRPCServer",
                    Event.goStart "startGRPCGateway",
                    Event.log ⟨"Interrupt signal received: %v\n", [Arg.signal sig]⟩] }).2))
    ∧ (∀ err : Option error,
        StartGRPCAndHTTPServer s port (FiredShared.errChan err) w
          = (Outcome.ret err, { w with trace := w.trace ++
              [Event.signalNotify s.interruptSignals, Event.goStart "startWithSharePort"] }))
    ∧ (∀ sig : Signal,
        StartGRPCAndHTTPServer s port (FiredShared.sigChan sig) w
          = (Outcome.ret none,
              (stopGRPCAndHTTPServer (StartGRPCAndHTTPServer.configure s port)
                { w with trace := w.trace ++
                  [Event.signalNotify s.interruptSignals, Event.goStart "startWithSharePort",
                    Event.log ⟨"Interrupt signal received: %v\n", [Arg.signal sig]⟩] }).2)) := by
  have hl1 : (Start.configure s httpPort grpcPort reverseProxyFunc).logger.NeverPanics := by
    rw [Start.configure_logger]; exact hl
  have hh1 : (Start.configure s httpPort grpcPort reverseProxyFunc).HTTPServer ≠ none := by
    rw [Start.configure_HTTPServer]; exact hh
  have hg1 : (Start.configure s httpPort grpcPort reverseProxyFunc).GRPCServer ≠ none := by
    rw [Start.configure_GRPCServer]; exact hg
  have hl2 : (StartGRPCAndHTTPServer.configure s port).logger.NeverPanics := hl
  have hh2 : (StartGRPCAndHTTPServer.configure s port).HTTPServer ≠ none := hh
  refine ⟨?_, ?_, ?_, ?_, ?_⟩
  · intro err
    simp [Start, emit, Start.configure_interruptSignals]
  · intro err
    simp [Start, emit, Start.configure_interruptSignals]
  · intro sig
    simp [Start, emit, Start.configure_interruptSignals, Logger.call_of_neverPanics hl1,
      Stop_eq _ _ hl1 hh1 hg1]
  · intro err
    simp [StartGRPCAndHTTPServer, emit, StartGRPCAndHTTPServer.configure]
  · intro sig
    have hsig : (StartGRPCAndHTTPServer.configure s port).interruptSignals
        = s.interruptSignals := rfl
    simp [StartGRPCAndHTTPServer, emit, hsig, Logger.call_of_neverPanics hl2,
      stopGRPCAndHTTPServer_eq _ _ hl2 hh2]

theorem C4_start_returns_first_outcome_witness :
    (Start svc0 8080 9090 [] (Fired.errChan1 (some (error.other "bind: address already in use"))) w0).1
        = Outcome.ret (some (error.other "bind: address already in use"))
    ∧ (Start svc0 8080 9090 [] (Fired.errChan1 (some (error.other "bind: address already in use"))) w0).2.trace
        = [Event.signalNotify [2, 15], Event.goStart "startGRPCServer",
            Event.goStart "startGRPCGateway"]
    ∧ (Start svc0 8080 9090 [] (Fired.sigChan 15) w0).1 = Outcome.ret none
    ∧ (Start svc0 8080 9090 [] (Fired.sigChan 15) w0).2.trace
        = [Event.signalNotify [2, 15], Event.goStart "startGRPCServer",
            Event.goStart "startGRPCGateway",
            Event.log ⟨"Interrupt signal received: %v\n", [Arg.signal 15]⟩,
            Event.SetKeepAlivesEnabled false 0,
            Event.log ⟨"Waiting for %v before shutdown starts\n", [Arg.duration 2000000000]⟩,
            Event.Sleep 2000000000 0 2000000000,
            Event.GracefulStop 2000000000 2000000000,
            Event.Shutdown 2000000000 12000000000 2000000000,
            Event.ctxDone 2000000000 12000000000]
    ∧ (StartGRPCAndHTTPServer svc0 8080 (FiredShared.sigChan 2) w0).2.trace
        = [Event.signalNotify [2, 15], Event.goStart "startWithSharePort",
            Event.log ⟨"Interrupt signal received: %v\n", [Arg.signal 2]⟩,
            Event.SetKeepAlivesEnabled false 0,
            Event.log ⟨"Waiting for %v before shutdown starts\n", [Arg.duration 2000000000]⟩,
            Event.Sleep 2000000000 0 2000000000,
            Event.Shutdown 2000000000 12000000000 2000000000,
            Event.ctxDone 2000000000 12000000000] :=
  have h := C4_start_returns_first_outcome svc0 8080 9090 8080 [] w0 (fun _ _ => rfl)
    (by decide) (by decide)
  ⟨congrArg Prod.fst (h.1 _),
    (congrArg (fun x => x.2.trace) (h.1 _)).trans (by decide),
    congrArg Prod.fst (h.2.2.1 15),
    (congrArg (fun x => x.2.trace) (h.2.2.1 15)).trans (by decide),
    (congrArg (fun x => x.2.trace) (h.2.2.2.2 2)).trans (by decide)⟩

/-! ### Gateway start -/

theorem startGRPCGateway.register_stops_at_first_error (s : Service)
    (hl : s.logger.NeverPanics) (failing : ReverseProxyFunc) (later : List ReverseProxyFunc) :
    ∀ (earlier : List ReverseProxyFunc) (mux : ServeMux) (w : World),
      (∀ h ∈ earlier, ∀ m : ServeMux,
        (h.run context.Background m s.gRPCAddress s.gRPCDialOptions).1 = none) →
      ∀ e : error,
      (failing.run context.Background
          (earlier.foldl (fun m h => (h.run context.Background m s.gRPCAddress s.gRPCDialOptions).2) mux)
          s.gRPCAddress s.gRPCDialOptions).1 = some e →
      startGRPCGateway.register s (earlier ++ failing :: later) mux w
        = (Outcome.ret (some e,
            (failing.run context.Background
              (earlier.foldl (fun m h => (h.run context.Background m s.gRPCAddress s.gRPCDialOptions).2) mux)
              s.gRPCAddress s.gRPCDialOptions).2),
           { w with trace := w.trace ++ earlier.map (fun h => Event.reverseProxyCall h.id) ++
              [Event.reverseProxyCall failing.id,
                Event.log ⟨"register handler from endPoint error: %s\n", [Arg.str e.Error]⟩] }) := by
  intro earlier
  induction earlier with
  | nil =>
      intro mux w _ e he
      simp only [List.nil_append, List.foldl_nil, List.map_nil, List.append_nil] at he ⊢
      rw [startGRPCGateway.register]
      cases hrun : failing.run context.Background mux s.gRPCAddress s.gRPCDialOptions with
      | mk err mux1 =>
          rw [hrun] at he
          simp only at he
          subst he
          simp [emit, Logger.call_of_neverPanics hl]
  | cons h rest ih =>
      intro mux w hok e he
      have hh : (h.run context.Background mux s.gRPCAddress s.gRPCDialOptions).1 = none :=
        hok h (List.mem_cons_self _ _) mux
      have hrest : ∀ h1 ∈ rest, ∀ m : ServeMux,
          (h1.run context.Background m s.gRPCAddress s.gRPCDialOptions).1 = none :=
        fun h1 hm m => hok h1 (List.mem_cons_of_mem _ hm) m
      simp only [List.cons_append, List.foldl_cons, List.map_cons] at he ⊢
      rw [startGRPCGateway.register]
      cases hrun : h.run context.Background mux s.gRPCAddress s.gRPCDialOptions with
      | mk err mux1 =>
          rw [hrun] at hh he
          simp only at hh
          subst hh
          have := ih mux1 { w with trace := w.trace ++ [Event.reverseProxyCall h.id] } hrest e he
          simp [emit, this]

theorem startWithSharePort.register_returns (s : Service) (hl : s.logger.NeverPanics) :
    ∀ (funcs : List ReverseProxyFunc) (mux : ServeMux) (w : World),
      ∃ (mux1 : ServeMux) (added : List Event),
        startWithSharePort.register s funcs mux w
            = (Outcome.ret mux1, { w with trace := w.trace ++ added })
          ∧ ∀ h ∈ funcs, Event.reverseProxyCall h.id ∈ added := by
  intro funcs
  induction funcs with
  | nil =>
      intro mux w
      exact ⟨mux, [], by simp [startWithSharePort.register], by simp⟩
  | cons h rest ih =>
      intro mux w
      rw [startWithSharePort.register]
      cases hrun : h.run context.Background mux s.gRPCAddress s.gRPCDialOptions with
      | mk err mux1 =>
          cases err with
          | none =>
              obtain ⟨mux2, added, heq, hmem⟩ :=
                ih mux1 { w with trace := w.trace ++ [Event.reverseProxyCall h.id] }
              refine ⟨mux2, Event.reverseProxyCall h.id :: added, ?_, ?_⟩
              · simp [emit, heq]
              · intro h1 hm
                rcases List.mem_cons.mp hm with rfl | hm
                · exact List.mem_cons_self _ _
                · exact List.mem_cons_of_mem _ (hmem h1 hm)
          | some e =>
              obtain ⟨mux2, added, heq, hmem⟩ :=
                ih mux1 { w with trace := w.trace ++ [Event.reverseProxyCall h.id] ++
                  [Event.log ⟨"register handler from endPoint error: %s\n", [Arg.str e.Error]⟩] }
              refine ⟨mux2, Event.reverseProxyCall h.id ::
                Event.log ⟨"register handler from endPoint error: %s\n", [Arg.str e.Error]⟩ ::
                  added, ?_, ?_⟩
              · simp only [List.append_assoc, List.singleton_append] at heq
                simp [emit, Logger.call_of_neverPanics hl, heq]
              · intro h1 hm
                rcases List.mem_cons.mp hm with rfl | hm
                · exact List.mem_cons_self _ _
                · exact List.mem_cons_of_mem _ (List.mem_cons_of_mem _ (hmem h1 hm))

theorem startWithSharePort_always_listens (s : Service) (w : World) (hl : s.logger.NeverPanics)
    (hm : s.mux ≠ none) (hh : s.HTTPServer ≠ none) :
    ((startWithSharePort s w).1.value).map Prod.fst = some (some (w.serveResult s.httpServerAddress))
    ∧ Event.ListenAndServe s.httpServerAddress ∈ (startWithSharePort s w).2.trace
    ∧ ∀ h ∈ s.reverseProxyFuncs, Event.reverseProxyCall h.id ∈ (startWithSharePort s w).2.trace := by
  obtain ⟨mux, hmux⟩ := Option.ne_none_iff_exists'.mp hm
  obtain ⟨srv, hsrv⟩ := Option.ne_none_iff_exists'.mp hh
  obtain ⟨mux1, added, heq, hmem⟩ :=
    startWithSharePort.register_returns s hl s.reverseProxyFuncs (applyRoutes s.routes mux) w
  unfold startWithSharePort
  simp only [hmux, hsrv, Go.bind_apply, heq, Go.pure_apply, HTTPServer.ListenAndServe]
  refine ⟨rfl, ?_, ?_⟩
  · simp
  · intro h hin
    have := hmem h hin
    simp [this]

/-- C6, at the failing input: the first of two reverse-proxy functions fails. On the
separate-port path, `startGRPCGateway` logs the error and returns it, without calling the
second function and without `ListenAndServe`. On the shared-port path, `startWithSharePort`
logs the error, goes on to call the second function, calls `ListenAndServe` and returns what
that call returns. -/
theorem C6_startWithSharePort_goes_on_after_error :
    svcProxies.reverseProxyFuncs.map (fun h => h.id) = [1, 2]
    ∧ ((startGRPCGateway (Start.configure svcProxies 8080 9090 []) w0).1.value).map Prod.fst
        = some (some (error.other "dial tcp: connection refused"))
    ∧ (startGRPCGateway (Start.configure svcProxies 8080 9090 []) w0).2.trace
        = [Event.reverseProxyCall 1,
            Event.log ⟨"register handler from endPoint error: %s\n",
              [Arg.str "dial tcp: connection refused"]⟩]
    ∧ ((startWithSharePort (StartGRPCAndHTTPServer.configure svcProxies 8080) w0).1.value).map
          Prod.fst
        = some (some (error.other "http: Server closed"))
    ∧ (startWithSharePort (StartGRPCAndHTTPServer.configure svcProxies 8080) w0).2.trace
        = [Event.reverseProxyCall 1,
            Event.log ⟨"register handler from endPoint error: %s\n",
              [Arg.str "dial tcp: connection refused"]⟩,
            Event.reverseProxyCall 2,
            Event.ListenAndServe "0.0.0.0:8080"] := by
  refine ⟨?_, ?_, ?_, ?_, ?_⟩ <;> decide

/-! ### Options and `NewService` -/

theorem apply_unaryInterceptors (calls : List OptionCall) :
    ∀ s : Service, (s.apply (calls.map OptionCall.toOpt)).unaryInterceptors
      = s.unaryInterceptors ++ suppliedUnary calls := by
  induction calls with
  | nil => intro s; simp [Service.apply, suppliedUnary]
  | cons c rest ih =>
      intro s
      have h := ih (c.toOpt s)
      simp only [Service.apply, List.map_cons, List.foldl_cons] at h ⊢
      rw [h]
      cases c <;> simp [OptionCall.toOpt, suppliedUnary, WithRecovery, WithHTTPHandler,
        WithAnnotator, WithErrorHandler, WithUnaryInterceptor, WithStreamInterceptor,
        WithShutdownFunc, WithShutdownTimeout, WithPreShutdownDelay, WithInterruptSignal,
        WithStaticDir, WithGRPCServerOption, WithGRPCDialOption, WithGRPCMuxOption,
        WithHTTPServer, WithLogger, WithPrometheus, WithReverseProxyFunc, Service.WithRoutes]

theorem apply_streamInterceptors (calls : List OptionCall) :
    ∀ s : Service, (s.apply (calls.map OptionCall.toOpt)).streamInterceptors
      = s.streamInterceptors ++ suppliedStream calls := by
  induction calls with
  | nil => intro s; simp [Service.apply, suppliedStream]
  | cons c rest ih =>
      intro s
      have h := ih (c.toOpt s)
      simp only [Service.apply, List.map_cons, List.foldl_cons] at h ⊢
      rw [h]
      cases c <;> simp [OptionCall.toOpt, suppliedStream, WithRecovery, WithHTTPHandler,
        WithAnnotator, WithErrorHandler, WithUnaryInterceptor, WithStreamInterceptor,
        WithShutdownFunc, WithShutdownTimeout, WithPreShutdownDelay, WithInterruptSignal,
        WithStaticDir, WithGRPCServerOption, WithGRPCDialOption, WithGRPCMuxOption,
        WithHTTPServer, WithLogger, WithPrometheus, WithReverseProxyFunc, Service.WithRoutes]

theorem apply_gRPCServerOptions (calls : List OptionCall) :
    ∀ s : Service, (s.apply (calls.map OptionCall.toOpt)).gRPCServerOptions
      = s.gRPCServerOptions ++ suppliedServerOptions calls := by
  induction calls with
  | nil => intro s; simp [Service.apply, suppliedServerOptions]
  | cons c rest ih =>
      intro s
      have h := ih (c.toOpt s)
      simp only [Service.apply, List.map_cons, List.foldl_cons] at h ⊢
      rw [h]
      cases c <;> simp [OptionCall.toOpt, suppliedServerOptions, WithRecovery, WithHTTPHandler,
        WithAnnotator, WithErrorHandler, WithUnaryInterceptor, WithStreamInterceptor,
        WithShutdownFunc, WithShutdownTimeout, WithPreShutdownDelay, WithInterruptSignal,
        WithStaticDir, WithGRPCServerOption, WithGRPCDialOption, WithGRPCMuxOption,
        WithHTTPServer, WithLogger, WithPrometheus, WithReverseProxyFunc, Service.WithRoutes]

theorem apply_enableRequestAccess (calls : List OptionCall) :
    ∀ s : Service, (s.apply (calls.map OptionCall.toOpt)).enableRequestAccess
      = s.enableRequestAccess := by
  induction calls with
  | nil => intro s; simp [Service.apply]
  | cons c rest ih =>
      intro s
      have h := ih (c.toOpt s)
      simp only [Service.apply, List.map_cons, List.foldl_cons] at h ⊢
      rw [h]
      cases c <;> simp [OptionCall.toOpt, WithRecovery, WithHTTPHandler,
        WithAnnotator, WithErrorHandler, WithUnaryInterceptor, WithStreamInterceptor,
        WithShutdownFunc, WithShutdownTimeout, WithPreShutdownDelay, WithInterruptSignal,
        WithStaticDir, WithGRPCServerOption, WithGRPCDialOption, WithGRPCMuxOption,
        WithHTTPServer, WithLogger, WithPrometheus, WithReverseProxyFunc, Service.WithRoutes]

/-- C7: for every sequence of calls of the option constructors of option.go, the gRPC server
that `NewService` builds receives, after the server options the user supplied, the stream
chain and then the unary chain; each chain starts with the validator hook followed by the
recovery hook, continues with the interceptors supplied through `WithStreamInterceptor`
(respectively `WithUnaryInterceptor`) in the order supplied, and ends with the prometheus
hook when prometheus is enabled. -/
theorem C7_NewService_interceptor_order (pkg : Pkg) (calls : List OptionCall) :
    (NewService pkg (calls.map OptionCall.toOpt)).GRPCServer
      = some (grpc.NewServer (suppliedServerOptions calls ++
          [ServerOption.WithStreamServerChain
              (StreamServerInterceptor.grpc_validator :: StreamServerInterceptor.grpc_recovery ::
                (suppliedStream calls ++
                  (if (NewService pkg (calls.map OptionCall.toOpt)).enablePrometheus then
                    [StreamServerInterceptor.grpc_prometheus] else []))),
            ServerOption.WithUnaryServerChain
              (UnaryServerInterceptor.grpc_validator :: UnaryServerInterceptor.grpc_recovery ::
                (suppliedUnary calls ++
                  (if (NewService pkg (calls.map OptionCall.toOpt)).enablePrometheus then
                    [UnaryServerInterceptor.grpc_prometheus] else [])))])) := by
  have hu := apply_unaryInterceptors calls (defaultService pkg)
  have hs := apply_streamInterceptors calls (defaultService pkg)
  have ho := apply_gRPCServerOptions calls (defaultService pkg)
  have he := apply_enableRequestAccess calls (defaultService pkg)
  have hu0 : (defaultService pkg).unaryInterceptors
      = [UnaryServerInterceptor.grpc_validator, UnaryServerInterceptor.grpc_recovery] := rfl
  have hs0 : (defaultService pkg).streamInterceptors
      = [StreamServerInterceptor.grpc_validator, StreamServerInterceptor.grpc_recovery] := rfl
  have ho0 : (defaultService pkg).gRPCServerOptions = [] := rfl
  have he0 : (defaultService pkg).enableRequestAccess = false := rfl
  rw [hu0] at hu
  rw [hs0] at hs
  rw [ho0] at ho
  rw [he0] at he
  have key : ∀ s1 : Service,
      s1.unaryInterceptors
        = UnaryServerInterceptor.grpc_validator :: UnaryServerInterceptor.grpc_recovery ::
            suppliedUnary calls →
      s1.streamInterceptors
        = StreamServerInterceptor.grpc_validator :: StreamServerInterceptor.grpc_recovery ::
            suppliedStream calls →
      s1.gRPCServerOptions = suppliedServerOptions calls →
      s1.enableRequestAccess = false →
      (NewService.finish s1).GRPCServer
        = some (grpc.NewServer (suppliedServerOptions calls ++
          [ServerOption.WithStreamServerChain
              (StreamServerInterceptor.grpc_validator :: StreamServerInterceptor.grpc_recovery ::
                (suppliedStream calls ++
                  (if (NewService.finish s1).enablePrometheus then
                    [StreamServerInterceptor.grpc_prometheus] else []))),
            ServerOption.WithUnaryServerChain
              (UnaryServerInterceptor.grpc_validator :: UnaryServerInterceptor.grpc_recovery ::
                (suppliedUnary calls ++
                  (if (NewService.finish s1).enablePrometheus then
                    [UnaryServerInterceptor.grpc_prometheus] else [])))])) := by
    intro s1 h1 h2 h3 h4
    cases s1 with
    | mk g h hh ga ha rc sf st pd sigs ann sd eh mux mo routes si ui era gso gdo lg rpf ep =>
      simp only at h1 h2 h3 h4
      subst h1 h2 h3 h4
      cases ep <;> cases gdo <;> cases h <;> simp [NewService.finish, grpc.NewServer]
  exact key _ (by simpa using hu) (by simpa using hs) (by simpa using ho) he

theorem NewService.finish_pointers (s : Service) :
    (NewService.finish s).GRPCServer ≠ none ∧ (NewService.finish s).HTTPServer ≠ none
      ∧ (NewService.finish s).mux ≠ none := by
  cases s with
  | mk g h hh ga ha rc sf st pd sigs ann sd eh mux mo routes si ui era gso gdo lg rpf ep =>
    cases ep <;> cases era <;> cases gdo <;> cases h <;> simp [NewService.finish]

theorem NewService_pointers (pkg : Pkg) (opts : List Opt) :
    (NewService pkg opts).GRPCServer ≠ none ∧ (NewService pkg opts).HTTPServer ≠ none
      ∧ (NewService pkg opts).mux ≠ none :=
  NewService.finish_pointers _

/-! ### The context handed to the handler -/

/-- C11, as stated, fails: two calls that start at the clock readings 0 and 1700000000 hand
the handler the same context; its values are the generated request id, the client address
and the method (under the method key and the URI key), and no start timestamp. The start
time is the other component of what the statements before the handler call produce. -/
theorem C11_context_has_no_start_timestamp :
    w0.clock ≠ wLater.clock
    ∧ (RequestInterceptor.enter pkg0 svc0 ctx0 info0 w0).1
        = Outcome.ret (0,
            { values := [(CtxKey.RequestURI, CtxVal.str "/pkg.Greeter/SayHello"),
                (CtxKey.RequestMethod, CtxVal.str "/pkg.Greeter/SayHello"),
                (CtxKey.GRPCClientIP, CtxVal.str "10.0.0.7:5000"),
                (CtxKey.XRequestID, CtxVal.str "uuid-0")],
              peer := some "10.0.0.7:5000" })
    ∧ (RequestInterceptor.enter pkg0 svc0 ctx0 info0 wLater).1
        = Outcome.ret (1700000000,
            { values := [(CtxKey.RequestURI, CtxVal.str "/pkg.Greeter/SayHello"),
                (CtxKey.RequestMethod, CtxVal.str "/pkg.Greeter/SayHello"),
                (CtxKey.GRPCClientIP, CtxVal.str "10.0.0.7:5000"),
                (CtxKey.XRequestID, CtxVal.str "uuid-0")],
              peer := some "10.0.0.7:5000" })
    ∧ RequestInterceptor.handlerCtx pkg0 svc0 ctx0 info0 w0
        = RequestInterceptor.handlerCtx pkg0 svc0 ctx0 info0 wLater := by
  refine ⟨?_, ?_, ?_, ?_⟩ <;> decide

theorem Ctx.Value_WithValue (ctx : Ctx) (key : CtxKey) (val : CtxVal) (key1 : CtxKey) :
    (context.WithValue ctx key val).Value key1
      = if key1 = key then some val else ctx.Value key1 := by
  by_cases h : key1 = key
  · subst h
    simp [Ctx.Value, context.WithValue, List.lookup]
  · have hb : (key1 == key) = false := by simpa using h
    simp [Ctx.Value, context.WithValue, List.lookup, hb, h]

theorem RequestInterceptor.handlerCtx_eq (pkg : Pkg) (s : Service) (ctx : Ctx)
    (info : UnaryServerInfo) (w : World) (hl : s.logger.NeverPanics) :
    RequestInterceptor.handlerCtx pkg s ctx info w
      = context.WithValue
          (context.WithValue
            (context.WithValue
              (match ctx.Value CtxKey.XRequestID with
                | none => context.WithValue ctx CtxKey.XRequestID (CtxVal.str (pkg.RndUUID w.rand))
                | some _ => ctx)
              CtxKey.GRPCClientIP (CtxVal.str (pkg.GetGRPCClientIP ctx).1))
            CtxKey.RequestMethod (CtxVal.str info.FullMethod))
          CtxKey.RequestURI (CtxVal.str info.FullMethod) := by
  unfold RequestInterceptor.handlerCtx RequestInterceptor.enter
  cases h : ctx.Value CtxKey.XRequestID <;>
    simp [h, Logger.call_of_neverPanics hl, time.Now, RndUUID]

/-- C11, amended: for every call, with a logger that does not panic, the handler is called
with a context that carries a request id (the incoming one unchanged when the incoming
context has one, the next value of `RndUUID` otherwise), the client address that
`GetGRPCClientIP` returns, and `info.FullMethod` under both the method key and the URI key;
every other key keeps its incoming value. The start time is not part of that context: the
context is the same whatever the clock reads, and the start time is kept beside it. -/
theorem C11_handler_context (pkg : Pkg) (s : Service) (ctx : Ctx) (req : Any)
    (info : UnaryServerInfo) (handler : UnaryHandler) (w : World) (hl : s.logger.NeverPanics) :
    (∀ (out : Outcome (Any × Option error)) (w2 : World),
        handler (RequestInterceptor.handlerCtx pkg s ctx info w) req
            (RequestInterceptor.handlerWorld pkg s ctx info w) = (out, w2) →
        RequestInterceptor.call pkg s ctx req info handler w
          = (match out with
              | Outcome.ret (res, err) => Outcome.ret (w.clock, res, err)
              | Outcome.panicked v => Outcome.panicked v, w2))
    ∧ (RequestInterceptor.handlerCtx pkg s ctx info w).Value CtxKey.XRequestID
        = (match ctx.Value CtxKey.XRequestID with
            | some id => some id
            | none => some (CtxVal.str (pkg.RndUUID w.rand)))
    ∧ (RequestInterceptor.handlerCtx pkg s ctx info w).Value CtxKey.GRPCClientIP
        = some (CtxVal.str (pkg.GetGRPCClientIP ctx).1)
    ∧ (RequestInterceptor.handlerCtx pkg s ctx info w).Value CtxKey.RequestMethod
        = some (CtxVal.str info.FullMethod)
    ∧ (RequestInterceptor.handlerCtx pkg s ctx info w).Value CtxKey.RequestURI
        = some (CtxVal.str info.FullMethod)
    ∧ (∀ name : String,
        (RequestInterceptor.handlerCtx pkg s ctx info w).Value (CtxKey.other name)
          = ctx.Value (CtxKey.other name))
    ∧ (RequestInterceptor.handlerCtx pkg s ctx info w).peer = ctx.peer
    ∧ (∀ c : Int,
        RequestInterceptor.handlerCtx pkg s ctx info { w with clock := c }
          = RequestInterceptor.handlerCtx pkg s ctx info w) := by
  have hctx := RequestInterceptor.handlerCtx_eq pkg s ctx info w hl
  refine ⟨?_, ?_, ?_, ?_, ?_, ?_, ?_, ?_⟩
  · intro out w2 hout
    unfold RequestInterceptor.call
    cases out with
    | ret a => simp [RequestInterceptor.enter_of_neverPanics pkg s ctx info w hl, hout]
    | panicked v => simp [RequestInterceptor.enter_of_neverPanics pkg s ctx info w hl, hout]
  · rw [hctx]
    cases h : ctx.Value CtxKey.XRequestID with
    | none => simp [Ctx.Value_WithValue]
    | some id => simp [Ctx.Value_WithValue, h]
  · rw [hctx]
    simp [Ctx.Value_WithValue]
  · rw [hctx]
    simp [Ctx.Value_WithValue]
  · rw [hctx]
    simp [Ctx.Value_WithValue]
  · intro name
    rw [hctx]
    cases h : ctx.Value CtxKey.XRequestID <;> simp [Ctx.Value_WithValue]
  · rw [hctx]
    cases h : ctx.Value CtxKey.XRequestID <;> simp [context.WithValue]
  · intro c
    rw [hctx, RequestInterceptor.handlerCtx_eq pkg s ctx info { w with clock := c } hl]

theorem C11_handler_context_witness :
    (RequestInterceptor.handlerCtx pkg0 svc0 ctxWithID info0 w0).Value CtxKey.XRequestID
        = some (CtxVal.str "req-42")
    ∧ (RequestInterceptor.handlerCtx pkg0 svc0 ctx0 info0 w0).Value CtxKey.XRequestID
        = some (CtxVal.str "uuid-0")
    ∧ (RequestInterceptor.handlerCtx pkg0 svc0 ctx0 info0 w0).Value CtxKey.GRPCClientIP
        = some (CtxVal.str "10.0.0.7:5000")
    ∧ (RequestInterceptor.handlerCtx pkg0 svc0 ctx0 info0 w0).Value CtxKey.RequestMethod
        = some (CtxVal.str "/pkg.Greeter/SayHello") :=
  ⟨(C11_handler_context pkg0 svc0 ctxWithID none info0 okHandler w0 (fun _ _ => rfl)).2.1.trans
      (by decide),
    (C11_handler_context pkg0 svc0 ctx0 none info0 okHandler w0 (fun _ _ => rfl)).2.1.trans
      (by decide),
    (C11_handler_context pkg0 svc0 ctx0 none info0 okHandler w0 (fun _ _ => rfl)).2.2.1.trans
      (by decide),
    (C11_handler_context pkg0 svc0 ctx0 none info0 okHandler w0 (fun _ _ => rfl)).2.2.2.1⟩

end Gmicro
